import Mathlib

/-!
Verification development for the Text2Flat repository (src/text.py, src/flat.py).

The Python classes `TextParser` (text.py) and `FlatWriter` (flat.py) are shallowly
embedded below.  Python `dict`s (which preserve insertion order and have unique
keys) are modelled as association lists `List (String × v)` with the operations
`dget` (dict.get / `d[k]` read), `dset` (`d[k] = v`: update in place if the key is
bound, append otherwise), `dpop` (`d.pop(k)`) and `dkeys` (`d.keys()`).  Since a
Python dict can never hold a duplicate key, iteration over `.items()` is modelled
as iteration over the pairs of the list, and `d.get(k)` of the key currently being
iterated is modelled by the pair's own value.

The file system (corpus files, input files) is modelled as an association list
from path to the list of lines of the file (each line without its trailing
newline).  `datetime.datetime.now()` is modelled as a rational `now`: the
proleptic Gregorian ordinal of the current instant, in days, including the
fractional time of day (`datetime.date.toordinal` semantics); timedelta
arithmetic and datetime comparisons become rational arithmetic.  Python float
percentages are modelled as rationals.  Python exceptions (ValueError, KeyError,
NameError) are modelled with `Except String`.
-/

/-- `d.get(k)`: value of the first (= only, for dict-representable lists) binding of `k`. -/
def dget {v : Type} (d : List (String × v)) (k : String) : Option v :=
  (d.find? (fun p => p.1 = k)).map (fun p => p.2)

/-- `d[k] = val`: replace the value in place if `k` is bound, append `(k, val)` otherwise. -/
def dset {v : Type} (d : List (String × v)) (k : String) (val : v) : List (String × v) :=
  match d with
  | [] => [(k, val)]
  | p :: rest => if p.1 = k then (k, val) :: rest else p :: dset rest k val

/-- `d.pop(k)`: remove the first binding of `k` (the only one for a real dict). -/
def dpop {v : Type} (d : List (String × v)) (k : String) : List (String × v) :=
  match d with
  | [] => []
  | p :: rest => if p.1 = k then rest else p :: dpop rest k

/-- `d.keys()`, in binding order. -/
def dkeys {v : Type} (d : List (String × v)) : List String := d.map (fun p => p.1)

@[simp] theorem dget_nil {v : Type} (k : String) : dget ([] : List (String × v)) k = none := rfl

@[simp] theorem dget_cons {v : Type} (p : String × v) (rest : List (String × v)) (k : String) :
    dget (p :: rest) k = if p.1 = k then some p.2 else dget rest k := by
  by_cases h : p.1 = k <;> simp [dget, List.find?, h]

@[simp] theorem dkeys_nil {v : Type} : dkeys ([] : List (String × v)) = [] := rfl

@[simp] theorem dkeys_cons {v : Type} (p : String × v) (rest : List (String × v)) :
    dkeys (p :: rest) = p.1 :: dkeys rest := rfl

theorem dget_dset_ne {v : Type} (d : List (String × v)) (k k2 : String) (val : v)
    (h : k ≠ k2) : dget (dset d k val) k2 = dget d k2 := by
  induction d with
  | nil => simp [dset, h]
  | cons p rest ih =>
    by_cases hp : p.1 = k <;> simp [dset, hp, h, ih]

theorem dget_dpop_ne {v : Type} (d : List (String × v)) (k k2 : String)
    (h : k ≠ k2) : dget (dpop d k) k2 = dget d k2 := by
  induction d with
  | nil => simp [dpop]
  | cons p rest ih =>
    by_cases hp : p.1 = k
    · simp [dpop, hp, h]
    · simp [dpop, hp, ih]

theorem dget_dset_self {v : Type} (d : List (String × v)) (k : String) (val : v) :
    dget (dset d k val) k = some val := by
  induction d with
  | nil => simp [dset]
  | cons p rest ih =>
    by_cases hp : p.1 = k <;> simp [dset, hp, ih]

theorem dget_mem {v : Type} (d : List (String × v)) (k : String) :
    k ∈ dkeys d → ∃ val, dget d k = some val := by
  induction d with
  | nil => simp
  | cons p rest ih =>
    intro hmem
    by_cases hp : p.1 = k
    · exact ⟨p.2, by simp [hp]⟩
    · simp only [dkeys_cons, List.mem_cons] at hmem
      rcases hmem with h | h
      · exact absurd h.symm hp
      · simpa [hp] using ih h

theorem dget_none_of_not_mem {v : Type} (d : List (String × v)) (k : String)
    (h : k ∉ dkeys d) : dget d k = none := by
  induction d with
  | nil => simp
  | cons p rest ih =>
    simp only [dkeys_cons, List.mem_cons, not_or] at h
    simp [Ne.symm h.1, ih h.2]

/-! ## Date machinery shared by text.py and flat.py

text.py lines 112-115 and flat.py lines 77-80 compile the same three regular
expressions `reg_mmddyyyy`, `reg_ddmmyyyy`, `reg_yyyymmdd`, used with `re.match`
(anchored prefix match, no trailing anchor).  They are embedded as explicit
character-list matchers; the alternations in each pattern are disjoint on their
first character, so no backtracking is involved. -/

/-- `(0[1-9]|1[012])` : a two-character month. -/
def month2 (a b : Char) : Bool :=
  (a = '0' && ('1' ≤ b && b ≤ '9')) || (a = '1' && (b = '0' || b = '1' || b = '2'))

/-- `(0[1-9]|[12][0-9]|3[01])` : a two-character day. -/
def day2 (a b : Char) : Bool :=
  (a = '0' && ('1' ≤ b && b ≤ '9')) || ((a = '1' || a = '2') && b.isDigit) ||
    (a = '3' && (b = '0' || b = '1'))

/-- `(19|20)\d\d` : a four-character year. -/
def year4 : List Char → Bool
  | a :: b :: c :: d :: _ => ((a = '1' && b = '9') || (a = '2' && b = '0')) && c.isDigit && d.isDigit
  | _ => false

/-- Optionally consume one dash or slash separator (the optional separator class of the
three date patterns). -/
def skipDateSep : List Char → List Char
  | c :: rest => if c = '-' || c = '/' then rest else c :: rest
  | [] => []

/-- `re.match` of `reg_mmddyyyy` (text.py line 113): anchored month, optional separator,
day, optional separator, `(19|20)\d\d`; prefix match, no end anchor. -/
def regMMDDYYYY (s : String) : Bool :=
  match s.toList with
  | a :: b :: rest =>
    month2 a b &&
      (match skipDateSep rest with
       | c :: d :: rest2 => day2 c d && year4 (skipDateSep rest2)
       | _ => false)
  | _ => false

/-- `re.match` of `reg_ddmmyyyy` (text.py line 114): anchored day, optional separator,
month, optional separator, `(19|20)\d\d`; prefix match. -/
def regDDMMYYYY (s : String) : Bool :=
  match s.toList with
  | a :: b :: rest =>
    day2 a b &&
      (match skipDateSep rest with
       | c :: d :: rest2 => month2 c d && year4 (skipDateSep rest2)
       | _ => false)
  | _ => false

/-- `re.match` of `reg_yyyymmdd` (text.py line 115): anchored `(19|20)\d\d`, optional
separator, month, optional separator, day; prefix match. -/
def regYYYYMMDD (s : String) : Bool :=
  match s.toList with
  | a :: b :: c :: d :: rest =>
    year4 [a, b, c, d] &&
      (match skipDateSep rest with
       | e :: f :: rest2 =>
         month2 e f &&
           (match skipDateSep rest2 with
            | g :: h :: _ => day2 g h
            | _ => false)
       | _ => false)
  | _ => false

/-- Gregorian leap-year rule used by `datetime`. -/
def isLeap (y : Nat) : Bool := y % 4 = 0 && (y % 100 ≠ 0 || y % 400 = 0)

def daysInMonth (y m : Nat) : Nat :=
  if m = 2 then (if isLeap y then 29 else 28)
  else if m = 4 || m = 6 || m = 9 || m = 11 then 30
  else 31

/-- A calendar date as validated and held by `datetime.date`. -/
structure Ymd where
  y : Nat
  m : Nat
  d : Nat
  deriving DecidableEq, Repr

/-- `datetime` accepts years 1..9999 and calendar-valid month/day. -/
def validYmd (x : Ymd) : Bool :=
  1 ≤ x.y && x.y ≤ 9999 && 1 ≤ x.m && x.m ≤ 12 && 1 ≤ x.d && x.d ≤ daysInMonth x.y x.m

def digitVal (c : Char) : Nat := c.toNat - '0'.toNat

def digitsToNat (cs : List Char) : Nat := cs.foldl (fun acc c => acc * 10 + digitVal c) 0

/-- `datetime.datetime.strptime(s, fmt).date()` for the three 8-digit formats used by the
code: the whole string must be exactly eight digits in the given field order and denote a
valid calendar date, otherwise ValueError (modelled as `none`). -/
def strptime8 (ypos mpos dpos : Nat) (s : String) : Option Ymd :=
  let cs := s.toList
  if cs.length = 8 && cs.all Char.isDigit then
    let part (pos len : Nat) : Nat := digitsToNat ((cs.drop pos).take len)
    let x : Ymd := ⟨part ypos 4, part mpos 2, part dpos 2⟩
    if validYmd x then some x else none
  else none

/-- `strptime(s, "%m%d%Y")`. -/
def strptimeMDY (s : String) : Option Ymd := strptime8 4 0 2 s
/-- `strptime(s, "%d%m%Y")`. -/
def strptimeDMY (s : String) : Option Ymd := strptime8 4 2 0 s
/-- `strptime(s, "%Y%m%d")`. -/
def strptimeYMD (s : String) : Option Ymd := strptime8 0 4 6 s

def pad2 (n : Nat) : String := if n < 10 then "0" ++ toString n else toString n

def pad4 (n : Nat) : String :=
  if n < 10 then "000" ++ toString n
  else if n < 100 then "00" ++ toString n
  else if n < 1000 then "0" ++ toString n
  else toString n

/-- `''.join(c for c in str(new_date) if c not in '-')[0:8]`: `str` of a `datetime.date` is
ISO `yyyy-mm-dd`, so dropping the dashes yields the 8-digit `yyyymmdd` string. -/
def fmtYmd (x : Ymd) : String := pad4 x.y ++ pad2 x.m ++ pad2 x.d

def daysBeforeMonth (y m : Nat) : Nat :=
  let base :=
    match m with
    | 1 => 0 | 2 => 31 | 3 => 59 | 4 => 90 | 5 => 120 | 6 => 151
    | 7 => 181 | 8 => 212 | 9 => 243 | 10 => 273 | 11 => 304 | 12 => 334
    | _ => 0
  if 3 ≤ m && isLeap y then base + 1 else base

/-- `datetime.date.toordinal`: day 1 is January 1 of year 1 (proleptic Gregorian). -/
def toOrdinal (x : Ymd) : Nat :=
  365 * (x.y - 1) + (x.y - 1) / 4 + (x.y - 1) / 400 - (x.y - 1) / 100
    + daysBeforeMonth x.y x.m + x.d

/-! ## text.py `TextParser` date functions (lines 308-455) -/

/-- The separator-stripping loop of `getDate` / `getAnsiDate`: `replace` every slash with
the empty string, then every dash — i.e. delete all slash and dash characters. -/
def stripSeps (s : String) : String :=
  String.mk (s.toList.filter (fun c => !(c = '/' || c = '-')))

/-- `TextParser.getDate` (text.py lines 380-455): parse a date string to canonical
`yyyymmdd`, preserving the reserved token `NEVER`; `None` (here `none`) on failure.
The three anchors are matched against the original string; strptime parses the first
eight characters of the separator-stripped string. -/
def getDate (s : String) : Option String :=
  if s = "NEVER" then some s
  else
    let stripped := String.mk ((stripSeps s).toList.take 8)
    if regMMDDYYYY s then (strptimeMDY stripped).map fmtYmd
    else if regDDMMYYYY s then (strptimeDMY stripped).map fmtYmd
    else if regYYYYMMDD s then (strptimeYMD stripped).map fmtYmd
    else none

example : getDate "2022-11-04" = some "20221104" := rfl
example : getDate "11/04/2022 11:04" = some "20221104" := rfl
example : getDate "NEVER" = some "NEVER" := rfl
example : getDate "nonsense" = none := rfl
example : getDate "23-12-2020" = some "20201223" := rfl
example : getDate "12-23-2020" = some "20201223" := rfl
example : getDate "12232020" = some "20201223" := rfl
example : getDate "2020-12-23" = some "20201223" := rfl
example : getDate "2020" = none := rfl
example : getDate "2020-12-23 19:37:10 GMT" = some "20201223" := rfl
example : getDate "2020-12-23T19:37:10.12234 GMT" = some "20201223" := rfl
example : getDate "2022-11-06 18:02:01.558085" = some "20221106" := rfl
example : getDate "Bar" = none := rfl
example : getDate "2022-31-06 18:02:01.558085" = none := rfl
example : getDate "31-06-2022 18:02:01.558085" = none := rfl
example : getDate "12/23/2020" = some "20201223" := rfl

/-- `TextParser.isExpiry` (text.py lines 310-342).  `now` is the rational ordinal of
`datetime.datetime.now()`; `tomorrow = now + timedelta(1)`.  When `getDate` returns a
string that `strptime(_, "yyyymmdd")` cannot parse (the token `NEVER`), the uncaught
`ValueError` is modelled as `Except.error`. -/
def isExpiry (now : ℚ) (some_date : String) : Except String Bool :=
  match getDate some_date with
  | none => .ok false
  | some test_date =>
    match strptimeYMD test_date with
    | none => .error "ValueError: time data does not match format yyyymmdd"
    | some x => .ok (decide ((toOrdinal x : ℚ) > now + 1))

/-- `TextParser.isBirthDate` (text.py lines 347-377): true iff the parsed date is before
`now - 2*365` days and after `now - 100*365` days; same uncaught ValueError as `isExpiry`
for an unparsable canonical string. -/
def isBirthDate (now : ℚ) (some_date : String) : Except String Bool :=
  match getDate some_date with
  | none => .ok false
  | some test_date =>
    match strptimeYMD test_date with
    | none => .error "ValueError: time data does not match format yyyymmdd"
    | some x =>
      .ok (decide ((toOrdinal x : ℚ) < now - 730 ∧ (toOrdinal x : ℚ) > now - 36500))

/-- The scanning loop of `TextParser.getRequestedDate` (text.py lines 299-306), with the
running index made explicit. -/
def getRequestedDateAux (now : ℚ) (field : String) : List String → Int → Except String Int
  | [], _ => .ok (-1)
  | d :: rest, idx =>
    if field = "birthday" then
      match isBirthDate now d with
      | .error e => .error e
      | .ok true => .ok idx
      | .ok false => getRequestedDateAux now field rest (idx + 1)
    else if field = "expiry" then
      match isExpiry now d with
      | .error e => .error e
      | .ok true => .ok idx
      | .ok false => getRequestedDateAux now field rest (idx + 1)
    else getRequestedDateAux now field rest (idx + 1)

/-- `TextParser.getRequestedDate` (text.py lines 284-306): index of the first column that
satisfies the role classifier for `field`, and `-1` — not `None` — when no column does. -/
def getRequestedDate (now : ℚ) (data : List String) (field : String) : Except String Int :=
  getRequestedDateAux now field data 0

/-! ## text.py detection strategies (lines 91-107, 154-160, 243-275) -/

/-- Python `\s` / `str.strip` whitespace class (space, tab, newline, CR, VT, FF). -/
def isPySpace (c : Char) : Bool :=
  c = ' ' || c = '\t' || c = '\n' || c = '\r' || c = '\x0b' || c = '\x0c'

/-- Python `str.strip()`. -/
def pstrip (s : String) : String :=
  String.mk (((s.toList.dropWhile isPySpace).reverse.dropWhile isPySpace).reverse)

/-- Python `\w` : alphanumeric or underscore (inputs are ASCII). -/
def isWordChar (c : Char) : Bool := c.isAlphanum || c = '_'

/-- Python `str.lower()` (ASCII). -/
def lowerStr (s : String) : String := String.mk (s.toList.map Char.toLower)

/-- Strategy regex for `userId`: anchored, six to fifteen digits. -/
def matchUserId (s : String) : Bool :=
  let cs := s.toList
  cs.all Char.isDigit && 6 ≤ cs.length && cs.length ≤ 15

/-- Strategy regex for `postalcode`: letter, digit, letter, an optional run of whitespace,
digit, letter, digit, end of string. -/
def matchPostal (s : String) : Bool :=
  match s.toList with
  | a :: b :: c :: rest =>
    a.isAlpha && b.isDigit && c.isAlpha &&
      (match rest.dropWhile isPySpace with
       | [d, e, f] => d.isDigit && e.isAlpha && f.isDigit
       | _ => false)
  | _ => false

/-- Character class of both sides of the `email` pattern: word characters, dot,
underscore, dash. -/
def emailChar (c : Char) : Bool := isWordChar c || c = '.' || c = '_' || c = '-'

/-- Strategy regex for `email`: one or more class characters, an at sign, then a part
that backtracking decomposes as one or more class characters, a literal dot, and two or
three word characters at the end of the string. -/
def matchEmail (s : String) : Bool :=
  let cs := s.toList
  let a := cs.takeWhile (fun c => c ≠ '@')
  match cs.dropWhile (fun c => c ≠ '@') with
  | _ :: b =>
    !a.isEmpty && a.all emailChar &&
      (List.range b.length).any (fun i =>
        1 ≤ i && (b.take i).all emailChar && b.getD i ' ' = '.' &&
          (let t := b.drop (i + 1)
           (2 ≤ t.length && t.length ≤ 3) && t.all isWordChar))
  | [] => false

/-- Strategy regex for `phone`: optional plus, optional opening parenthesis, three
digits, an optional separator (dash, space, or closing parenthesis with optional
whitespace-or-dash), three digits, optional dash-or-space, four digits, end. -/
def matchPhone (s : String) : Bool :=
  let cs := s.toList
  let cs1 := match cs with | '+' :: r => r | r => r
  let cs2 := match cs1 with | '(' :: r => r | r => r
  match cs2 with
  | a :: b :: c :: rest =>
    a.isDigit && b.isDigit && c.isDigit &&
      (let rest2 :=
         match rest with
         | '-' :: r => r
         | ' ' :: r => r
         | ')' :: r =>
           (match r with
            | x :: r2 => if isPySpace x || x = '-' then r2 else x :: r2
            | [] => [])
         | r => r
       match rest2 with
       | d :: e :: f :: rest3 =>
         d.isDigit && e.isDigit && f.isDigit &&
           (let rest4 := match rest3 with | '-' :: r => r | ' ' :: r => r | r => r
            match rest4 with
            | [g, h, i, j] => g.isDigit && h.isDigit && i.isDigit && j.isDigit
            | _ => false)
       | _ => false)
  | _ => false

def listPrefixOf (lit : List Char) (cs : List Char) : Bool := lit.isPrefixOf cs

/-- Strategy regex for `country`: prefix `CA` or `Canada` (no end anchor). -/
def matchCountry (s : String) : Bool :=
  listPrefixOf "CA".toList s.toList || listPrefixOf "Canada".toList s.toList

/-- Strategy regex for `province`: prefix one of the thirteen two-letter codes. -/
def matchProvince (s : String) : Bool :=
  ["NL", "PE", "NS", "NB", "QC", "ON", "MB", "SK", "AB", "BC", "YT", "NT", "NU"].any
    (fun p => listPrefixOf p.toList s.toList)

/-- Consume an exact literal. -/
def eatLit : List Char → List Char → Option (List Char)
  | [], cs => some cs
  | _ :: _, [] => none
  | l :: ls, c :: cs => if c = l then eatLit ls cs else none

/-- Consume one or more whitespace characters (`\s+`). -/
def eatWs1 : List Char → Option (List Char)
  | [] => none
  | c :: r => if isPySpace c then some (r.dropWhile isPySpace) else none

/-- Strategy regex for `gender`: anchored alternation of M/Male, F/Female,
Prefer not to say (case-variant first letters, flexible whitespace), N/Not listed, X. -/
def matchGender (s : String) : Bool :=
  match s.toList with
  | [c] => c = 'M' || c = 'm' || c = 'F' || c = 'f' || c = 'N' || c = 'n' || c = 'X' || c = 'x'
  | c :: rest =>
    if c = 'M' || c = 'm' then rest = ['a', 'l', 'e']
    else if c = 'F' || c = 'f' then rest = ['e', 'm', 'a', 'l', 'e']
    else if c = 'N' || c = 'n' then
      (match eatLit ['o', 't'] rest with
       | some r1 =>
         (match eatWs1 r1 with
          | some r2 =>
            (match eatLit ['l', 'i', 's', 't', 'e', 'd'] r2 with
             | some [] => true
             | _ => false)
          | none => false)
       | none => false)
    else if c = 'P' || c = 'p' then
      (match eatLit ['r', 'e', 'f', 'e', 'r'] rest with
       | some r1 =>
         (match eatWs1 r1 with
          | some r2 =>
            (match eatLit ['n', 'o', 't'] r2 with
             | some r3 =>
               (match eatWs1 r3 with
                | some r4 =>
                  (match eatLit ['t', 'o'] r4 with
                   | some r5 =>
                     (match eatWs1 r5 with
                      | some r6 =>
                        (match eatLit ['s', 'a', 'y'] r6 with
                         | some [] => true
                         | _ => false)
                      | none => false)
                   | none => false)
                | none => false)
             | none => false)
          | none => false)
       | none => false)
    else false
  | [] => false

/-- Split into word-character groups, one group boundary per non-word character.
`re.split` on one-or-more non-word characters differs from this only by empty groups,
which the caller discards. -/
def splitNWAux (acc : List Char) : List Char → List (List Char)
  | [] => [acc.reverse]
  | c :: rest => if isWordChar c then splitNWAux (c :: acc) rest else acc.reverse :: splitNWAux [] rest

/-- `_corpusCompare_`'s token set of one field value (text.py lines 268-271): split the
lowercased value on non-word characters and discard the empty token. -/
def fieldWordSet (s : String) : List String :=
  ((splitNWAux [] (lowerStr s).toList).map String.mk).filter (fun w => w ≠ "")

/-- Non-emptiness of the intersection of the field's token set with the corpus set
(text.py line 273). -/
def tokensIntersect (corpusSet : List String) (d : String) : Bool :=
  (fieldWordSet d).any (fun w => corpusSet.contains w)

/-- The corpus set read from a corpus file: each line lowercased, trailing newline
stripped (file lines are modelled without their newlines). -/
def corpusSetOf (lines : List String) : List String := lines.map lowerStr

/-- The scanning loop of `_corpusCompare_` (text.py lines 267-275): first column whose
token set meets the corpus set and whose index is not among the already collected column
indices; columns that intersect but are already claimed are passed over. -/
def corpusCompareAux (corpusSet : List String) (claimed : List Int) :
    List String → Nat → Option Nat
  | [], _ => none
  | d :: rest, idx =>
    if tokensIntersect corpusSet d then
      if claimed.contains (idx : Int) then corpusCompareAux corpusSet claimed rest (idx + 1)
      else some idx
    else corpusCompareAux corpusSet claimed rest (idx + 1)

/-- `TextParser._corpusCompare_` (text.py lines 255-275): look the field's corpus file up
in `corpus_dict` (subscript: KeyError when absent), open and read it (the path was vetted
at construction), and scan the record's columns.  The `corpus_to_read == None` branch is
unreachable here because `_loadCorpora_` only stores non-None paths. -/
def corpusCompare (fs : List (String × List String)) (corpus_dict : List (String × String))
    (fields_collected : List (String × Int)) (field : String) (data : List String) :
    Except String (Option Int) :=
  match dget corpus_dict field with
  | none => .error "KeyError"
  | some pathName =>
    match dget fs pathName with
    | none => .error "FileNotFoundError"
    | some lines =>
      .ok ((corpusCompareAux (corpusSetOf lines) (fields_collected.map (fun p => p.2))
              data 0).map (fun n => (n : Int)))

/-- One detection strategy of `known_strategies` (text.py lines 92-107): a compiled
pattern, the bound method `_corpusCompare_`, or the bound method `getRequestedDate`. -/
inductive Strategy where
  | pat (matcher : String → Bool)
  | corpusFn
  | dateFn

/-- `known_strategies` (text.py lines 92-107). -/
def knownStrategies (field : String) : Option Strategy :=
  if field = "userId" then some (.pat matchUserId)
  else if field = "branch" then some .corpusFn
  else if field = "profile" then some .corpusFn
  else if field = "postalcode" then some (.pat matchPostal)
  else if field = "email" then some (.pat matchEmail)
  else if field = "phone" then some (.pat matchPhone)
  else if field = "birthday" then some .dateFn
  else if field = "expiry" then some .dateFn
  else if field = "country" then some (.pat matchCountry)
  else if field = "province" then some (.pat matchProvince)
  else if field = "street" then some .corpusFn
  else if field = "city" then some .corpusFn
  else if field = "gender" then some (.pat matchGender)
  else if field = "firstName" then some .corpusFn
  else if field = "lastName" then some .corpusFn
  else none

/-- The pattern branch of `_findDataIndex_` (text.py lines 246-249): position of the
first column whose stripped value matches the pattern, `None` when none does. -/
def patFindAux (m : String → Bool) : List String → Nat → Option Nat
  | [], _ => none
  | d :: rest, pos => if m (pstrip d) then some pos else patFindAux m rest (pos + 1)

/-- The `TextParser` object state (the fields of text.py's `__init__`). -/
structure TextParserT where
  tagMap : List (String × String)
  delimiter : String
  requiredList : List String
  optionalList : List String
  requested_fields : List (String × Bool)
  corpus_dict : List (String × String)
  fields_collected : List (String × Int)
  fields_histogram : List (String × Nat)
  total_records : Nat
  success_threshold : ℚ

/-- `TextParser._findDataIndex_` (text.py lines 243-249): a callable strategy is invoked
and its value returned as is — `getRequestedDate` yields an `Int` (so `some` even on its
`-1` failure value), `_corpusCompare_` yields an index or `None`; a pattern strategy is
matched column by column. -/
def findDataIndex (fs : List (String × List String)) (now : ℚ) (p : TextParserT)
    (field : String) (strategy : Strategy) (data : List String) :
    Except String (Option Int) :=
  match strategy with
  | .pat m => .ok ((patFindAux m data 0).map (fun n => (n : Int)))
  | .corpusFn => corpusCompare fs p.corpus_dict p.fields_collected field data
  | .dateFn => (getRequestedDate now data field).map some

/-- The loop of `TextParser._findRequestedData_` (text.py lines 154-160) over the
requested field names: on a non-None index, record it in `fields_collected` and increment
`fields_histogram` (a defaultdict); on `None` leave both untouched. -/
def findRequestedDataAux (fs : List (String × List String)) (now : ℚ) (cols : List String) :
    List String → TextParserT → Except String TextParserT
  | [], p => .ok p
  | field :: rest, p =>
    match knownStrategies field with
    | none => .error "KeyError"
    | some strat =>
      match findDataIndex fs now p field strat cols with
      | .error e => .error e
      | .ok none => findRequestedDataAux fs now cols rest p
      | .ok (some idx) =>
        findRequestedDataAux fs now cols rest
          { p with
            fields_collected := dset p.fields_collected field idx,
            fields_histogram :=
              dset p.fields_histogram field ((dget p.fields_histogram field).getD 0 + 1) }

/-- `TextParser._findRequestedData_` (text.py lines 154-160). -/
def findRequestedData (fs : List (String × List String)) (now : ℚ) (p : TextParserT)
    (cols : List String) : Except String TextParserT :=
  findRequestedDataAux fs now cols (dkeys p.requested_fields) p

/-! ## text.py `TextParser` construction and queries -/

/-- The initial `_tagMap_` of text.py lines 74-90. -/
def textTagMapDefault : List (String × String) :=
  [("userId", "userId"), ("branch", "branch"), ("profile", "profile"),
   ("postalcode", "postalcode"), ("email", "email"), ("phone", "phone"),
   ("birthday", "birthday"), ("expiry", "expiry"), ("province", "province"),
   ("country", "country"), ("city", "city"), ("gender", "gender"),
   ("street", "street"), ("firstName", "firstName"), ("lastName", "lastName")]

/-- `preferredSearchOrder` (text.py lines 110-111). -/
def preferredSearchOrder : List String :=
  ["userId", "branch", "profile", "postalcode", "email", "phone", "birthday",
   "expiry", "street", "province", "gender", "city", "lastName", "firstName"]

/-- `corpusNames` (text.py line 130). -/
def corpusNames : List String :=
  ["street", "firstName", "lastName", "city", "branch", "profile"]

/-- `TextParser.renameField` (text.py lines 462-480): guarded by
`oldName != '' or newName != ''`; when the old name is bound, pop it and re-insert its
original value under the new name. -/
def renameField (tagMap : List (String × String)) (oldName newName : String) :
    List (String × String) :=
  if oldName ≠ "" || newName ≠ "" then
    match dget tagMap oldName with
    | some originalValue => dset (dpop tagMap oldName) newName originalValue
    | none => tagMap
  else tagMap

/-- A value of the configuration dictionary (a JSON-like document): a string, a list of
field names, a nested string-to-string table, or a number.  Values are modelled
well-typed; text.py never validates their types. -/
inductive ConfigVal where
  | str (v : String)
  | vals (v : List String)
  | table (v : List (String × String))
  | num (v : ℚ)
  deriving DecidableEq

/-- `TextParser._rebindFieldNames_` (text.py lines 163-167). -/
def rebindFieldNames (cfg : List (String × ConfigVal)) (tagMap : List (String × String)) :
    List (String × String) :=
  match dget cfg "fieldBindings" with
  | some (.table bs) => bs.foldl (fun tm p => renameField tm p.1 p.2) tagMap
  | _ => tagMap

/-- `TextParser._setDelimiter_` (text.py lines 194-197): the configured delimiter, or the
comma default from line 69. -/
def setDelimiter (cfg : List (String × ConfigVal)) : String :=
  match dget cfg "delimiter" with
  | some (.str d) => d
  | _ => ","

/-- `TextParser._loadRequestedFields_` (text.py lines 208-236).  ValueError when the
required list is absent.  `self.optionalList` is initialised to `[]` (line 121) and lines
215-218 only re-assign it (to `[]`) when the configuration has no optional list, so the
optional-field loop of line 227 always iterates an empty list; only required fields reach
`requested_fields`.  Returns the required list and the ordered `requested_fields`. -/
def loadRequestedFields (cfg : List (String × ConfigVal)) (tagMap : List (String × String)) :
    Except String (List String × List (String × Bool)) :=
  match dget cfg "required" with
  | some (.vals requiredList) =>
    let requested := preferredSearchOrder.foldl
      (fun req orderedField =>
        requiredList.foldl
          (fun req2 requiredField =>
            match dget tagMap requiredField with
            | some t => if orderedField = t then dset req2 orderedField true else req2
            | none => req2)
          req)
      []
    .ok (requiredList, requested)
  | _ => .error "**error no required fields were specified.."

/-- The vetting loop of `_loadCorpora_` (text.py lines 180-188): for each canonical
corpus name in order, a missing `corpus_dict` entry (KeyError, or an impossible `None`
value) raises the missing-corpus ValueError, and a path that does not exist raises the
missing-file ValueError. -/
def checkCorpora (fs : List (String × List String)) (cd : List (String × String)) :
    List String → Except String Unit
  | [] => .ok ()
  | name :: rest =>
    match dget cd name with
    | none => .error ("**error expected a lookup file for " ++ name)
    | some file =>
      if (dget fs file).isSome then checkCorpora fs cd rest
      else .error ("**error expected a file but it does not exist " ++ file)

/-- The resolution loops of `_loadCorpora_` (text.py lines 176-179): for each canonical
corpus name and each tag-map binding, store the user-named corpus path under the
canonical name when the binding maps the user name to that canonical name. -/
def corpusResolve (corpusDict : List (String × String)) (tagMap : List (String × String)) :
    List (String × String) :=
  corpusNames.foldl
    (fun cd corpusName =>
      tagMap.foldl
        (fun cd2 kv =>
          match dget corpusDict kv.1 with
          | some pathv => if corpusName = kv.2 then dset cd2 corpusName pathv else cd2
          | none => cd2)
        cd)
    []

/-- `TextParser._loadCorpora_` (text.py lines 170-191): ValueError when the configuration
has no corpus table; translate user field names to canonical corpus names through the
(possibly rebound) tag map; then vet every canonical corpus name. -/
def loadCorpora (fs : List (String × List String)) (cfg : List (String × ConfigVal))
    (tagMap : List (String × String)) : Except String (List (String × String)) :=
  match dget cfg "corpus" with
  | some (.table corpusDict) =>
    let resolved := corpusResolve corpusDict tagMap
    match checkCorpora fs resolved corpusNames with
    | .error e => .error e
    | .ok _ => .ok resolved
  | _ => .error "**error missing configuration section corpus."

/-- `TextParser._setThreshold_` (text.py lines 200-205).  Note: `__init__` never invokes
this method; construction leaves `success_threshold` at the 90.0 assigned on line 136. -/
def setThreshold (cfg : List (String × ConfigVal)) (p : TextParserT) : TextParserT :=
  match dget cfg "threshold" with
  | some (.num t) => { p with success_threshold := t }
  | _ => { p with success_threshold := 90 }

/-- The configuration part of `TextParser.__init__` (text.py lines 63-136): everything up
to, but not including, the reading of `data`.  ValueError when the configuration is
`None` or empty; then rebinding, delimiter, requested fields, corpora; threshold fixed at
90.0 (line 136). -/
def textParserInitConfig (fs : List (String × List String))
    (configs : Option (List (String × ConfigVal))) : Except String TextParserT :=
  match configs with
  | none => .error "**error missing configuration section"
  | some cfg =>
    if cfg.length < 1 then .error "**error missing configuration section"
    else
      let tagMap := rebindFieldNames cfg textTagMapDefault
      let delim := setDelimiter cfg
      match loadRequestedFields cfg tagMap with
      | .error e => .error e
      | .ok rl =>
        match loadCorpora fs cfg tagMap with
        | .error e => .error e
        | .ok cd =>
          .ok { tagMap := tagMap, delimiter := delim, requiredList := rl.1,
                optionalList := [], requested_fields := rl.2, corpus_dict := cd,
                fields_collected := [], fields_histogram := [], total_records := 0,
                success_threshold := 90 }

/-- Python `str.split(sep)` with a non-empty separator, on character lists; the fuel is
at least the list length, and one character is consumed per step. -/
def pySplitAux (sep : List Char) : Nat → List Char → List Char → List (List Char)
  | _, acc, [] => [acc.reverse]
  | 0, acc, cs => [acc.reverse ++ cs]
  | fuel + 1, acc, c :: rest =>
    if sep.isPrefixOf (c :: rest) then
      acc.reverse :: pySplitAux sep fuel [] ((c :: rest).drop sep.length)
    else pySplitAux sep fuel (c :: acc) rest

/-- Python `str.split(sep)` (an empty separator is a ValueError in Python and is not
used by the code; the default delimiter is a comma). -/
def pySplit (sep : String) (s : String) : List String :=
  (pySplitAux sep.toList (s.toList.length + 1) [] s.toList).map String.mk

example : pySplit "," "a,b,,c" = ["a", "b", "", "c"] := rfl
example : pySplit "," "" = [""] := rfl

/-- The data-reading tail of `TextParser.__init__` (text.py lines 137-149).  When `data`
names an existing file its lines are consumed one by one — but line 143 evaluates
`this._debug_` (an undefined name) whenever `total_records <= 6`, so the first record of
any non-empty file raises a NameError; an empty file leaves the state untouched.
Otherwise `data` itself is one record: count it, split it on the delimiter and run
`_findRequestedData_`. -/
def textParserRead (fs : List (String × List String)) (now : ℚ) (p : TextParserT)
    (data : String) : Except String TextParserT :=
  match dget fs data with
  | some [] => .ok p
  | some (_ :: _) => .error "NameError: name this is not defined"
  | none =>
    let p1 := { p with total_records := p.total_records + 1 }
    findRequestedData fs now p1 (pySplit p.delimiter data)

/-- `TextParser.__init__` (text.py lines 30-149), in full: configuration processing, then
reading `data`. -/
def textParserInit (fs : List (String × List String)) (now : ℚ)
    (configs : Option (List (String × ConfigVal))) (data : String) :
    Except String TextParserT :=
  match textParserInitConfig fs configs with
  | .error e => .error e
  | .ok p => textParserRead fs now p data

/-- The histogram loop of `isWellFormed` (text.py lines 519-531): count the required
fields whose detection frequency is strictly below threshold/100; `none` models the early
`return False` when no records were read. -/
def wellFormedLoop (requested : List (String × Bool)) (total : Nat) (threshold : ℚ) :
    List (String × Nat) → Nat → Option Nat
  | [], errors => some errors
  | (field, count) :: rest, errors =>
    if dget requested field = some true then
      if total < 1 then none
      else if (count : ℚ) / (total : ℚ) < threshold / 100 then
        wellFormedLoop requested total threshold rest (errors + 1)
      else wellFormedLoop requested total threshold rest errors
    else wellFormedLoop requested total threshold rest errors

/-- `TextParser.isWellFormed` (text.py lines 505-531): report false when some required
field is missing from `fields_collected` (only checked when fewer fields were collected
than requested); then false iff some required histogram entry falls strictly below the
success threshold (or no records were read). -/
def isWellFormed (p : TextParserT) : Bool :=
  let missingFail : Bool :=
    if p.fields_collected.length < p.requested_fields.length then
      ((dkeys p.requested_fields).filter
        (fun r =>
          !(dkeys p.fields_collected).contains r &&
            decide (dget p.requested_fields r = some true))).length > 0
    else false
  if missingFail then false
  else
    match wellFormedLoop p.requested_fields p.total_records p.success_threshold
        p.fields_histogram 0 with
    | none => false
    | some errors => errors = 0

/-! ## flat.py `FlatWriter` (lines 24-619) -/

/-- `symphonyTags` (flat.py lines 30-75). -/
def fwSymphonyTags : List (String × String) :=
  [("userId", "USER_ID"), ("userGroupId", "USER_GROUP_ID"), ("userName", "USER_NAME"),
   ("userFirstName", "USER_FIRST_NAME"), ("userLastName", "USER_LAST_NAME"),
   ("userMiddleName", "USER_MIDDLE_NAME"), ("userPreferredName", "USER_PREFERRED_NAME"),
   ("userNameDspPref", "USER_NAME_DSP_PREF"), ("userLibrary", "USER_LIBRARY"),
   ("userProfile", "USER_PROFILE"), ("userPrefLang", "USER_PREF_LANG"),
   ("userPin", "USER_PIN"), ("userStatus", "USER_STATUS"),
   ("userRoutingFlag", "USER_ROUTING_FLAG"), ("userChgHistRule", "USER_CHG_HIST_RULE"),
   ("userLastActivity", "USER_LAST_ACTIVITY"), ("userPrivGranted", "USER_PRIV_GRANTED"),
   ("userPrivExpires", "USER_PRIV_EXPIRES"), ("userBirthDate", "USER_BIRTH_DATE"),
   ("userCategory1", "USER_CATEGORY1"), ("userCategory2", "USER_CATEGORY2"),
   ("userCategory3", "USER_CATEGORY3"), ("userCategory4", "USER_CATEGORY4"),
   ("userCategory5", "USER_CATEGORY5"), ("userAccess", "USER_ACCESS"),
   ("userEnvironment", "USER_ENVIRONMENT"), ("userMailingaddr", "USER_MAILINGADDR"),
   ("street", "STREET"), ("citySlashState", "CITY/STATE"), ("cityProv", "CITYPROV"),
   ("citySlashProv", "CITY/PROV"), ("postalcode", "POSTALCODE"), ("phone", "PHONE"),
   ("phone1", "PHONE1"), ("email", "EMAIL"), ("careSlashOf", "CARE/OF"),
   ("notifyVia", "NOTIFY_VIA"), ("note", "NOTE"), ("retrnmail", "RETRNMAIL"),
   ("homephone", "HOMEPHONE"), ("userAddr1", "USER_ADDR1_"), ("userAddr2", "USER_ADDR2_"),
   ("userAddr3", "USER_ADDR3_"), ("userXinfo", "USER_XINFO_")]

/-- `_defaults_` (flat.py lines 97-107). -/
def fwDefaults : List (String × String) :=
  [("userNameDspPref", "0"), ("userPrefLang", "ENGLISH"), ("userRoutingFlag", "Y"),
   ("userChgHistRule", "ALLCHARGES"), ("userAccess", "PUBLIC"),
   ("userEnvironment", "PUBLIC"), ("userMailingaddr", "1"), ("notifyVia", "PHONE"),
   ("retrnmail", "YES")]

/-- `_tagMap_` (flat.py lines 111-134). -/
def fwTagMapDefault : List (String × String) :=
  [("userId", "userId"), ("profile", "userProfile"), ("firstName", "userFirstName"),
   ("lastName", "userLastName"), ("middleName", "userMiddleName"),
   ("birthday", "userBirthDate"), ("gender", "userCategory2"), ("email", "email"),
   ("phone", "phone"), ("street", "street"), ("city", "citySlashState"),
   ("province", "citySlashState"), ("country", "country"), ("postalcode", "postalcode"),
   ("barcode", "userId"), ("pin", "userPin"), ("type", "userProfile"),
   ("expiry", "userPrivExpires"), ("branch", "userLibrary"), ("status", "userStatus"),
   ("careOf", "careSlashOf"), ("note", "note")]

/-- `mergedFields` (flat.py line 29). -/
def fwMergedFields : List (String × List String) := [("citySlashState", ["city", "province"])]

/-- Which of the four block dictionaries a `blocks` entry aliases. -/
inductive BlockId where
  | a1
  | a2
  | a3
  | xi
  deriving DecidableEq

/-- `blocks` (flat.py lines 145-157): the fields routed into `addr1` and `xinfo`. -/
def blocksOf (field : String) : Option BlockId :=
  if field = "postalcode" || field = "phone" || field = "street" || field = "city" ||
      field = "citySlashState" || field = "email" || field = "careSlashOf" ||
      field = "careOf" then some .a1
  else if field = "note" || field = "notifyVia" || field = "retrnmail" then some .xi
  else none

/-- The `FlatWriter` object state (flat.py `__init__`). -/
structure FWState where
  customersJson : List (List (String × String))
  minimumFields : Nat
  totalErrors : Nat
  mergedFields : List (String × List String)
  symphonyTags : List (String × String)
  defaults : List (String × String)
  tagMap : List (String × String)
  addr1 : List (String × String)
  addr2 : List (String × String)
  addr3 : List (String × String)
  xinfo : List (String × String)

/-- `FlatWriter.__init__` (flat.py lines 25-157); `minFields` defaults to 3 at call
sites. -/
def flatWriterInit (minFields : Nat) : FWState :=
  { customersJson := [], minimumFields := minFields, totalErrors := 0,
    mergedFields := fwMergedFields, symphonyTags := fwSymphonyTags,
    defaults := fwDefaults, tagMap := fwTagMapDefault,
    addr1 := [], addr2 := [], addr3 := [], xinfo := [] }

/-- `FlatWriter.getAnsiDate` (flat.py lines 214-286).  Returns the converted date (or
`none` for the bare `return`s) together with the number of `printError(True, ...)` calls
(0 or 1) the invocation performs.  A blank value returns silently; each regex branch
warns on a strptime ValueError; the final else warns unless the field is currently bound
to `userPrivExpires` and the stripped value is the literal `NEVER`. -/
def getAnsiDate (tagMap : List (String × String)) (fieldName testDate : String) :
    Option String × Nat :=
  if testDate = "" then (none, 0)
  else
    let stripped := String.mk ((stripSeps testDate).toList.take 8)
    if regMMDDYYYY testDate then
      match strptimeMDY stripped with
      | some d => (some (fmtYmd d), 0)
      | none => (none, 1)
    else if regDDMMYYYY testDate then
      match strptimeDMY stripped with
      | some d => (some (fmtYmd d), 0)
      | none => (none, 1)
    else if regYYYYMMDD testDate then
      match strptimeYMD stripped with
      | some d => (some (fmtYmd d), 0)
      | none => (none, 1)
    else if tagMap.contains (fieldName, "userPrivExpires") && stripped = "NEVER" then
      (some "NEVER", 0)
    else (none, 1)

example : getAnsiDate fwTagMapDefault "expiry" "NEVER" = (some "NEVER", 0) := rfl
example : getAnsiDate fwTagMapDefault "birthday" "NEVER" = (none, 1) := rfl
example : getAnsiDate fwTagMapDefault "expiry" "23-12-2020" = (some "20201223", 0) := rfl
example : getAnsiDate fwTagMapDefault "expiry" "2020" = (none, 1) := rfl

/-- `FlatWriter.mergeFields` (flat.py lines 486-527): collect the listed source fields in
order (reading each value before optionally popping the field), drop empty values, and
when anything remains join it with the delimiter into the target field. -/
def mergeFieldsFn (customer : List (String × String)) (targetField : String)
    (mergeList : List String) (delimiter : String) (purgeFields : Bool) :
    List (String × String) :=
  let step := mergeList.foldl
    (fun (acc : List (String × String) × List String) field =>
      if (dkeys acc.1).contains field then
        let v := (dget acc.1 field).getD ""
        (if purgeFields then dpop acc.1 field else acc.1, acc.2 ++ [v])
      else acc)
    (customer, [])
  let mFields := step.2.filter (fun v => v ≠ "")
  if mFields.length > 0 then dset step.1 targetField (String.intercalate delimiter mFields)
  else step.1

example :
    mergeFieldsFn [("firstName", "Lewis"), ("lastName", "Hamilton")] "lastName"
      ["lastName", "firstName"] ", " true = [("lastName", "Hamilton, Lewis")] := rfl
example :
    mergeFieldsFn [("firstName", "Lewis"), ("lastName", "Hamilton"), ("middleName", "Leslie")]
      "lastName" ["lastName", "middleName", "firstName"] ", " true =
      [("lastName", "Hamilton, Leslie, Lewis")] := rfl
example :
    mergeFieldsFn [("foo", "bar"), ("bizz", "baz")] "firstName" ["bizz"] ", " true =
      [("foo", "bar"), ("firstName", "baz")] := rfl

/-- The inner loop of `appendCustomer`'s date conversion (flat.py lines 423-434) for one
Symphony date tag `sd`: every tag-map binding whose value is `sd` has its customer field
read (`customerJson[fieldName]`: KeyError when absent), converted with `getAnsiDate`, and
either updated in place or popped when conversion fails. -/
def convertDatesInner (tagMap : List (String × String)) (sd : String) :
    List (String × String) → List (String × String) × Nat →
      Except String (List (String × String) × Nat)
  | [], acc => .ok acc
  | (fieldName, value) :: rest, acc =>
    if value = sd then
      match dget acc.1 fieldName with
      | none => .error "KeyError"
      | some customerDate =>
        let r := getAnsiDate tagMap fieldName customerDate
        let cur :=
          match r.1 with
          | none => dpop acc.1 fieldName
          | some nd => dset acc.1 fieldName nd
        convertDatesInner tagMap sd rest (cur, acc.2 + r.2)
    else convertDatesInner tagMap sd rest acc

/-- The date-conversion loop of `appendCustomer` (flat.py lines 422-434) over
`symphonyDates = [userBirthDate, userPrivExpires]`. -/
def convertDates (tagMap : List (String × String)) (cj : List (String × String)) :
    Except String (List (String × String) × Nat) :=
  match convertDatesInner tagMap "userBirthDate" tagMap (cj, 0) with
  | .error e => .error e
  | .ok acc1 => convertDatesInner tagMap "userPrivExpires" tagMap acc1

/-- `FlatWriter.appendCustomer` (flat.py lines 342-440): reject (with one error) a `None`
record or one with fewer than `minimumFields` entries; otherwise fill defaults for absent
keys, convert the birth and expiry dates, apply the configured merges, and append the
processed record. -/
def appendCustomer (st : FWState) (customerJson : Option (List (String × String))) :
    Except String (Bool × FWState) :=
  match customerJson with
  | none => .ok (false, { st with totalErrors := st.totalErrors + 1 })
  | some cj =>
    if cj.length < st.minimumFields then
      .ok (false, { st with totalErrors := st.totalErrors + 1 })
    else
      let cj1 := st.defaults.foldl
        (fun c kv => if dget c kv.1 = none then dset c kv.1 kv.2 else c) cj
      match convertDates st.tagMap cj1 with
      | .error e => .error e
      | .ok r =>
        let cj2 := st.mergedFields.foldl (fun c mk => mergeFieldsFn c mk.1 mk.2 ", " true) r.1
        .ok (true, { st with customersJson := st.customersJson ++ [cj2],
                             totalErrors := st.totalErrors + r.2 })

/-- `FlatWriter.renameCustomerField` (flat.py lines 176-199): `False` and no change when
either argument is empty or the old name is unbound; otherwise pop the old binding and
re-insert its value under the new name. -/
def renameCustomerField (tagMap : List (String × String)) (oldName newName : String) :
    Bool × List (String × String) :=
  if oldName = "" || newName = "" then (false, tagMap)
  else
    match dget tagMap oldName with
    | some originalValue => (true, dset (dpop tagMap oldName) newName originalValue)
    | none => (false, tagMap)

/-- One `.TAG.   |avalue` output line. -/
def lineFor (tag value : String) : String := "." ++ tag ++ ".   |a" ++ value

/-- Tag resolution shared by `toFlat` and `_printBlock_` (flat.py lines 592-597 and
450-454): map the customer field through `_tagMap_` (falling back to the field itself for
default system fields) and then through `symphonyTags`. -/
def resolveTag (tagMap symphonyTags : List (String × String)) (field : String) :
    Option String :=
  dget symphonyTags ((dget tagMap field).getD field)

/-- The field loop of `FlatWriter._printBlock_` (flat.py lines 449-459): one line per
resolvable field, one error per unresolvable one. -/
def printBlockFields (tagMap symphonyTags : List (String × String)) :
    List (String × String) → List String × Nat
  | [] => ([], 0)
  | (key, v) :: rest =>
    let r := printBlockFields tagMap symphonyTags rest
    match resolveTag tagMap symphonyTags key with
    | none => (r.1, r.2 + 1)
    | some t => (lineFor t v :: r.1, r.2)

/-- `FlatWriter._printBlock_` (flat.py lines 446-461): BEGIN marker, the block's field
lines, END marker; returns the lines and the error count. -/
def printBlock (tagMap symphonyTags : List (String × String)) (blockName : String)
    (block : List (String × String)) : List String × Nat :=
  let inner := printBlockFields tagMap symphonyTags block
  (("." ++ ((dget symphonyTags blockName).getD "None") ++ "BEGIN.") ::
      inner.1 ++ ["." ++ ((dget symphonyTags blockName).getD "None") ++ "END."],
    inner.2)

/-- The four block dictionaries threaded through one `toFlat` call. -/
structure Blocks where
  addr1 : List (String × String)
  addr2 : List (String × String)
  addr3 : List (String × String)
  xinfo : List (String × String)

def Blocks.get (B : Blocks) : BlockId → List (String × String)
  | .a1 => B.addr1
  | .a2 => B.addr2
  | .a3 => B.addr3
  | .xi => B.xinfo

def Blocks.update (B : Blocks) (bid : BlockId) (f v : String) : Blocks :=
  match bid with
  | .a1 => { B with addr1 := dset B.addr1 f v }
  | .a2 => { B with addr2 := dset B.addr2 f v }
  | .a3 => { B with addr3 := dset B.addr3 f v }
  | .xi => { B with xinfo := dset B.xinfo f v }

/-- The per-field loop of `toFlat` (flat.py lines 587-602): route block fields into their
block dictionary (`possibleBlock[customerField] = customer.get(customerField)`), emit a
line for each resolvable inline field, and count one error per unresolvable one. -/
def inlineRun (tagMap symphonyTags : List (String × String)) (B : Blocks) :
    List (String × String) → Blocks × List String × Nat
  | [] => (B, [], 0)
  | (customerField, v) :: rest =>
    match blocksOf customerField with
    | some bid => inlineRun tagMap symphonyTags (B.update bid customerField v) rest
    | none =>
      match resolveTag tagMap symphonyTags customerField with
      | none =>
        let r := inlineRun tagMap symphonyTags B rest
        (r.1, r.2.1, r.2.2 + 1)
      | some t =>
        let r := inlineRun tagMap symphonyTags B rest
        (r.1, lineFor t v :: r.2.1, r.2.2)

/-- One customer's segment of `toFlat` (flat.py lines 584-616): the document boundary and
form lines, the inline field lines, then each non-empty block bracketed by its markers.
The block dictionaries are the instance state received from whatever was processed
before; they are returned, not reset. -/
def customerToFlat (tagMap symphonyTags : List (String × String)) (B : Blocks)
    (customer : List (String × String)) : Blocks × List String × Nat :=
  let r := inlineRun tagMap symphonyTags B customer
  let B1 := r.1
  let p1 := if B1.addr1.length > 0 then printBlock tagMap symphonyTags "userAddr1" B1.addr1 else ([], 0)
  let p2 := if B1.addr2.length > 0 then printBlock tagMap symphonyTags "userAddr2" B1.addr2 else ([], 0)
  let p3 := if B1.addr3.length > 0 then printBlock tagMap symphonyTags "userAddr3" B1.addr3 else ([], 0)
  let p4 := if B1.xinfo.length > 0 then printBlock tagMap symphonyTags "userXinfo" B1.xinfo else ([], 0)
  (B1,
   "*** DOCUMENT BOUNDARY ***" :: "FORM=LDUSER" :: r.2.1 ++ p1.1 ++ p2.1 ++ p3.1 ++ p4.1,
   r.2.2 + p1.2 + p2.2 + p3.2 + p4.2)

/-- The customer loop of `toFlat` (flat.py lines 583-617), threading the block
dictionaries from one customer to the next — nothing clears them between customers. -/
def toFlatLoop (tagMap symphonyTags : List (String × String)) :
    List (List (String × String)) → Blocks → List String × Blocks × Nat
  | [], B => ([], B, 0)
  | c :: rest, B =>
    let r := customerToFlat tagMap symphonyTags B c
    let r2 := toFlatLoop tagMap symphonyTags rest r.1
    (r.2.1 ++ r2.1, r2.2.1, r.2.2 + r2.2.2)

/-- `FlatWriter.toFlat` (flat.py lines 539-619): the stdout lines and the updated state.
The opening `printError(True, ...)` of line 582 increments the run-wide error count by
one; every per-field error increments it again. -/
def toFlat (st : FWState) : List String × FWState :=
  let r := toFlatLoop st.tagMap st.symphonyTags st.customersJson
    ⟨st.addr1, st.addr2, st.addr3, st.xinfo⟩
  (r.1, { st with totalErrors := st.totalErrors + 1 + r.2.2,
                  addr1 := r.2.1.addr1, addr2 := r.2.1.addr2,
                  addr3 := r.2.1.addr3, xinfo := r.2.1.xinfo })

/-! ## Further dictionary lemmas -/

theorem dset_append_of_not_mem {v : Type} (d : List (String × v)) (k : String) (val : v)
    (h : k ∉ dkeys d) : dset d k val = d ++ [(k, val)] := by
  induction d with
  | nil => simp [dset]
  | cons p rest ih =>
    simp only [dkeys_cons, List.mem_cons, not_or] at h
    simp [dset, Ne.symm h.1, ih h.2]

theorem mem_dkeys_dset {v : Type} (d : List (String × v)) (k k2 : String) (val : v) :
    k2 ∈ dkeys (dset d k val) ↔ k2 ∈ dkeys d ∨ k2 = k := by
  induction d with
  | nil => simp [dset]
  | cons p rest ih =>
    by_cases hp : p.1 = k
    · subst hp
      simp [dset]
      tauto
    · simp [dset, hp, ih]
      tauto

theorem mem_dkeys_dpop {v : Type} (d : List (String × v)) (k k2 : String)
    (h : k2 ∈ dkeys (dpop d k)) : k2 ∈ dkeys d := by
  induction d with
  | nil => simp [dpop] at h
  | cons p rest ih =>
    by_cases hp : p.1 = k
    · simp only [dpop, hp, if_pos] at h
      simp [h]
    · simp only [dpop, hp, if_neg, not_false_iff, dkeys_cons, List.mem_cons] at h
      rcases h with h | h
      · simp [h]
      · simp [ih h]

/-! ## Claim C3 -/

/--
Claim C3: `getDate` applied to the exact string `NEVER` returns `NEVER` — that half
holds — but `isExpiry("NEVER")` does not return `False`: `getDate` hands the literal
`NEVER` to `strptime(test_date, "yyyymmdd")` (text.py line 339), which raises an uncaught
ValueError, so `isExpiry` raises instead of returning normally.  The theorem evaluates
the embedded code at the failing input for every evaluation instant.
-/
theorem c3_isExpiry_NEVER_raises :
    getDate "NEVER" = some "NEVER" ∧
      ∀ now : ℚ, isExpiry now "NEVER" =
        .error "ValueError: time data does not match format yyyymmdd" := by
  exact ⟨rfl, fun now => rfl⟩

/-! ## Claim C1 -/

/--
Claim C1: the claim states that a failed detection strategy leaves `fields_collected`
unchanged and does not increment `fields_histogram`.  That is what `_findDataIndex_`'s
own docstring promises (text.py line 242: position "or None if the search was
unsuccessful"), and it holds for pattern and corpus strategies — but `getRequestedDate`
returns `-1` on failure (line 306), and `_findRequestedData_` tests `!= None` (line 158),
so a record in which no column passes the birthday classifier stores `-1` as the
birthday column and counts the record as a detection success.  The theorem evaluates the
embedded per-record processing on such a record, for every evaluation instant: the
failing-strategy field is recorded as `-1` with histogram count 1.
-/
theorem c1_date_failure_recorded_as_success :
    ∀ now : ℚ,
      findRequestedData [] now
        { tagMap := textTagMapDefault, delimiter := ",", requiredList := ["birthday"],
          optionalList := [], requested_fields := [("birthday", true)], corpus_dict := [],
          fields_collected := [], fields_histogram := [], total_records := 1,
          success_threshold := 90 } ["hello", "world"] =
      .ok
        { tagMap := textTagMapDefault, delimiter := ",", requiredList := ["birthday"],
          optionalList := [], requested_fields := [("birthday", true)], corpus_dict := [],
          fields_collected := [("birthday", -1)], fields_histogram := [("birthday", 1)],
          total_records := 1, success_threshold := 90 } := by
  intro now
  rfl

/-! ## Claim C2 -/

/-- Corpus files for the C2 construction run. -/
def c2Fs : List (String × List String) :=
  [("street.txt", ["main"]), ("fname.txt", ["harold"]), ("lname.txt", ["jones"]),
   ("towns.txt", ["edmonton"]), ("branches.txt", ["eplstr"]),
   ("profiles.txt", ["eplvisitr"])]

/-- A configuration that sets `threshold` to 50. -/
def c2Cfg : List (String × ConfigVal) :=
  [("required", .vals ["street"]),
   ("threshold", .num 50),
   ("corpus", .table
     [("street", "street.txt"), ("firstName", "fname.txt"), ("lastName", "lname.txt"),
      ("city", "towns.txt"), ("branch", "branches.txt"), ("profile", "profiles.txt")])]

/--
Claim C2: the claim states that a configured `threshold` value is used by the
constructed parser.  The code defines `_setThreshold_` (text.py lines 200-205) for
exactly that purpose but `__init__` never calls it: line 136 unconditionally assigns
90.0.  The theorem evaluates the embedded constructor on a configuration carrying
`threshold = 50`: construction succeeds and the success threshold used by
`isWellFormed` is 90, while an explicit call of the (dead) `_setThreshold_` on the same
configuration would have produced 50.
-/
theorem c2_threshold_config_ignored :
    ∀ now : ℚ,
      (textParserInit c2Fs now (some c2Cfg) "main st").map
          (fun p => p.success_threshold) = .ok 90 ∧
      (textParserInit c2Fs now (some c2Cfg) "main st").map
          (fun p => (setThreshold c2Cfg p).success_threshold) = .ok 50 := by
  intro now
  exact ⟨rfl, rfl⟩

/-! ## Claim C8 -/

/--
Claim C8 counterexample: the claim says the rename operation is a no-op whenever either
argument is the empty string, but `TextParser.renameField` guards with
`oldName != '' or newName != ''` (text.py line 477), so renaming a bound field to the
empty label goes ahead and changes the table.
-/
theorem c8_counterexample :
    renameField textTagMapDefault "userId" "" ≠ textTagMapDefault := by decide

/--
Claim C8 as amended: `FlatWriter.renameCustomerField` is a no-op (returning `False`)
when either argument is empty or the old label is unbound; `TextParser.renameField` is a
no-op for an unbound old label, but its empty-argument guard only fires when *both*
arguments are empty, so a bound old label with an empty new label is re-inserted under
the empty-string label.  In both functions a bound old label's value is re-inserted
under the new label — appended at the end when the new label is not otherwise bound
(preserving the relative order of all other bindings), updated in place at its existing
position otherwise.
-/
theorem c8_rename_amended (m : List (String × String)) (oldName newName : String) :
    ((oldName = "" ∨ newName = "") → renameCustomerField m oldName newName = (false, m)) ∧
    (dget m oldName = none →
      renameField m oldName newName = m ∧
        renameCustomerField m oldName newName = (false, m)) ∧
    (∀ v, dget m oldName = some v → (oldName ≠ "" ∨ newName ≠ "") →
      renameField m oldName newName = dset (dpop m oldName) newName v) ∧
    (∀ v, dget m oldName = some v → oldName ≠ "" → newName ≠ "" →
      renameCustomerField m oldName newName = (true, dset (dpop m oldName) newName v)) ∧
    (∀ v, newName ∉ dkeys (dpop m oldName) →
      dset (dpop m oldName) newName v = dpop m oldName ++ [(newName, v)]) := by
  refine ⟨?_, ?_, ?_, ?_, ?_⟩
  · intro h
    rcases h with h | h <;> simp [renameCustomerField, h]
  · intro h
    constructor
    · by_cases hg : oldName = "" ∧ newName = ""
      · simp [renameField, hg.1, hg.2]
      · rw [not_and_or] at hg
        rcases hg with hg | hg <;> simp [renameField, hg, h]
    · by_cases hg : oldName = "" ∨ newName = ""
      · rcases hg with hg | hg <;> simp [renameCustomerField, hg]
      · rw [not_or] at hg
        simp [renameCustomerField, hg.1, hg.2, h]
  · intro v hv hg
    rcases hg with hg | hg <;> simp [renameField, hg, hv]
  · intro v hv h1 h2
    simp [renameCustomerField, h1, h2, hv]
  · intro v hnew
    exact dset_append_of_not_mem _ _ _ hnew

/-- Witness for the C8 amended theorem: renaming `firstName` to `nom` in the default
`FlatWriter` binding table succeeds, moves the binding to the end and keeps the other
bindings in order. -/
theorem c8_rename_amended_witness :
    renameCustomerField fwTagMapDefault "firstName" "nom" =
      (true, dpop fwTagMapDefault "firstName" ++ [("nom", "userFirstName")]) := by
  have h := c8_rename_amended fwTagMapDefault "firstName" "nom"
  have hd := h.2.2.2.1 "userFirstName" (by decide) (by decide) (by decide)
  have he := h.2.2.2.2 "userFirstName" (by decide)
  rw [hd, he]

/-! ## Claim C7 -/

/-- The histogram loop of `isWellFormed` counts no errors when every required entry's
frequency meets or exceeds the threshold. -/
theorem wellFormedLoop_all_ok (requested : List (String × Bool)) (total : Nat) (thr : ℚ)
    (hist : List (String × Nat)) (e : Nat) (htot : 1 ≤ total)
    (h : ∀ fc ∈ hist, dget requested fc.1 = some true →
      thr / 100 ≤ (fc.2 : ℚ) / (total : ℚ)) :
    wellFormedLoop requested total thr hist e = some e := by
  induction hist generalizing e with
  | nil => rfl
  | cons fc rest ih =>
    obtain ⟨f, c⟩ := fc
    have hrest : ∀ fc ∈ rest, dget requested fc.1 = some true →
        thr / 100 ≤ ((fc.2 : ℚ)) / (total : ℚ) :=
      fun fc hfc => h fc (List.mem_cons_of_mem _ hfc)
    by_cases hreq : dget requested f = some true
    · have hle := h ⟨f, c⟩ (List.mem_cons_self _ _) hreq
      have h1 : ¬ total < 1 := Nat.not_lt.mpr htot
      have h2 : ¬ ((c : ℚ) / (total : ℚ) < thr / 100) := not_lt.mpr hle
      simp only [wellFormedLoop, hreq, if_true, h1, if_false, h2, if_neg, ite_false,
        ite_true, if_pos]
      exact ih e hrest
    · simp only [wellFormedLoop, hreq, if_neg, ite_false]
      exact ih e hrest

/--
Claim C7: `isWellFormed` returns true whenever every required field is present in the
column assignment, at least one record was read, and every required histogram entry's
frequency is at least `threshold/100` — the comparison on text.py line 528 is strict
(`frequency < threshold/100`), so a frequency exactly equal to the threshold is *not* a
violation: the boundary is inclusive.  The witness instantiates the claim's scenario:
default threshold 90, a required field detected in exactly 9 of 10 records.
-/
theorem c7_wellformed_at_threshold (p : TextParserT)
    (hmiss : ∀ f ∈ dkeys p.requested_fields,
      dget p.requested_fields f = some true → f ∈ dkeys p.fields_collected)
    (htot : 1 ≤ p.total_records)
    (hfreq : ∀ fc ∈ p.fields_histogram, dget p.requested_fields fc.1 = some true →
      p.success_threshold / 100 ≤ (fc.2 : ℚ) / (p.total_records : ℚ)) :
    isWellFormed p = true := by
  unfold isWellFormed
  by_cases hlen : p.fields_collected.length < p.requested_fields.length
  · simp only [hlen, if_true, ite_true, List.length_pos, gt_iff_lt]
    simp [wellFormedLoop_all_ok _ _ _ _ _ htot hfreq]
    exact fun a ha hnot ht => hnot (hmiss a ha ht)
  · simp [hlen, wellFormedLoop_all_ok _ _ _ _ _ htot hfreq]

/-- The exact scenario of claim C7: one required field, present in the assignment,
detected in 9 of 10 records at the default threshold of 90. -/
def c7Parser : TextParserT :=
  { tagMap := textTagMapDefault, delimiter := ",", requiredList := ["street"],
    optionalList := [], requested_fields := [("street", true)],
    corpus_dict := [("street", "street.txt")], fields_collected := [("street", 0)],
    fields_histogram := [("street", 9)], total_records := 10, success_threshold := 90 }

/-- Witness for C7: 9 detections out of 10 records at threshold 90 is well formed. -/
theorem c7_wellformed_witness : isWellFormed c7Parser = true := by
  apply c7_wellformed_at_threshold
  · decide
  · decide
  · intro fc hfc ht
    have hfc2 : fc = ("street", 9) := by simpa [c7Parser] using hfc
    subst hfc2
    simp only [c7Parser]
    norm_num

/-! ## Claim C4 -/

/-- Parser state before the first record of the C4 run: one requested corpus field. -/
def c4P0 : TextParserT :=
  { tagMap := textTagMapDefault, delimiter := ",", requiredList := ["street"],
    optionalList := [], requested_fields := [("street", true)],
    corpus_dict := [("street", "street.txt")], fields_collected := [],
    fields_histogram := [], total_records := 1, success_threshold := 90 }

/-- Parser state after the record `[main st]`: street assigned to column 0. -/
def c4P1 : TextParserT :=
  { tagMap := textTagMapDefault, delimiter := ",", requiredList := ["street"],
    optionalList := [], requested_fields := [("street", true)],
    corpus_dict := [("street", "street.txt")], fields_collected := [("street", 0)],
    fields_histogram := [("street", 1)], total_records := 1, success_threshold := 90 }

/-- The corpus file of the C4 run. -/
def c4Fs : List (String × List String) := [("street.txt", ["Main"])]

/--
Claim C4 counterexample: the claim says the corpus strategy skips only columns claimed
by previously-detected fields *in the same record*.  `_corpusCompare_` (text.py line
274) consults `fields_collected.values()`, which persists across records.  Processing
the record `[main st]` twice from a fresh state: the first pass assigns street to
column 0, but on the second record — in which no field has yet been detected — the same
scanning loop given the empty same-record claim set returns column 0 (fourth conjunct),
while the code skips column 0 because of the record-1 assignment and leaves the state
unchanged, so street's histogram count stays at 1 instead of reaching 2.
-/
theorem c4_counterexample :
    findRequestedData c4Fs 0 c4P0 ["main st"] = .ok c4P1 ∧
    findRequestedData c4Fs 0 c4P1 ["main st"] = .ok c4P1 ∧
    c4P1.fields_histogram = [("street", 1)] ∧
    corpusCompareAux (corpusSetOf ["Main"]) [] ["main st"] 0 = some 0 :=
  ⟨rfl, rfl, rfl, rfl⟩

/-- The first column whose token set meets the corpus set, skipping the columns in the
given claim set — the scan of `_corpusCompare_` phrased as a search over indexed
columns. -/
def corpusFirstUnclaimed (corpusSet : List String) (claimed : List Int)
    (data : List String) : Option Nat :=
  (data.enum.find? (fun q =>
    tokensIntersect corpusSet q.2 && !claimed.contains ((q.1 : Int)))).map (fun q => q.1)

theorem corpusCompareAux_eq_enumFrom (corpusSet : List String) (claimed : List Int)
    (data : List String) (i : Nat) :
    corpusCompareAux corpusSet claimed data i =
      ((data.enumFrom i).find? (fun q =>
        tokensIntersect corpusSet q.2 && !claimed.contains ((q.1 : Int)))).map
          (fun q => q.1) := by
  induction data generalizing i with
  | nil => rfl
  | cons d rest ih =>
    by_cases h1 : tokensIntersect corpusSet d
    · by_cases h2 : ((i : Int) ∈ claimed)
      · simp [corpusCompareAux, List.enumFrom, List.find?_cons, h1, h2, ih]
      · simp [corpusCompareAux, List.enumFrom, List.find?_cons, h1, h2]
    · simp [corpusCompareAux, List.enumFrom, List.find?_cons, h1, ih]

/--
Claim C4 as amended: for a corpus-strategy field, `_findDataIndex_` returns the index of
the first column whose lowercased, non-word-split, empty-discarded token set intersects
the corpus set, skipping every column index currently recorded in the *accumulated*
column assignment `fields_collected` — which carries the claims of fields detected
earlier in the same record, but also every assignment surviving from earlier records
(including the field's own prior column).  Within a single record this still prevents
two corpus fields from claiming one column.
-/
theorem c4_corpus_skip_set_amended (fs : List (String × List String)) (now : ℚ)
    (p : TextParserT) (field pathName : String) (lines : List String) (data : List String)
    (h1 : dget p.corpus_dict field = some pathName)
    (h2 : dget fs pathName = some lines) :
    findDataIndex fs now p field .corpusFn data =
      .ok ((corpusFirstUnclaimed (corpusSetOf lines)
            (p.fields_collected.map (fun q => q.2)) data).map (fun n => (n : Int))) := by
  simp only [findDataIndex, corpusCompare, h1, h2, corpusFirstUnclaimed, List.enum,
    corpusCompareAux_eq_enumFrom]

/-- Parser state for the C4 amended witness: column 0 already claimed (by some field
detected in an earlier record or earlier in this one). -/
def c4PW : TextParserT :=
  { tagMap := textTagMapDefault, delimiter := ",", requiredList := ["street"],
    optionalList := [], requested_fields := [("street", true)],
    corpus_dict := [("street", "s.txt")], fields_collected := [("userId", 0)],
    fields_histogram := [("userId", 1)], total_records := 1, success_threshold := 90 }

/-- Witness for the C4 amended theorem: with column 0 claimed, the corpus strategy
passes over the intersecting column 0 and returns column 1. -/
theorem c4_corpus_skip_set_amended_witness :
    findDataIndex [("s.txt", ["Main"])] 0 c4PW "street" .corpusFn ["main st", "main ave"] =
      .ok (some 1) := by
  have h := c4_corpus_skip_set_amended [("s.txt", ["Main"])] 0 c4PW "street" "s.txt"
    ["Main"] ["main st", "main ave"] rfl rfl
  rw [h]
  rfl

/-! ## Claim C5 -/

/-- A canonical corpus name the vetting loop will reject: either unresolved, or resolved
to a path absent from the file system. -/
def badCorpusName (fs : List (String × List String)) (cd : List (String × String))
    (name : String) : Prop :=
  dget cd name = none ∨ ∃ file, dget cd name = some file ∧ dget fs file = none

theorem checkCorpora_error_of_bad (fs : List (String × List String))
    (cd : List (String × String)) (names : List String)
    (h : ∃ name ∈ names, badCorpusName fs cd name) :
    ∃ msg, checkCorpora fs cd names = .error msg := by
  induction names with
  | nil =>
    rcases h with ⟨name, hmem, _⟩
    simp at hmem
  | cons n rest ih =>
    rcases hn : dget cd n with _ | file
    · exact ⟨"**error expected a lookup file for " ++ n, by simp [checkCorpora, hn]⟩
    · rcases hf : dget fs file with _ | lines
      · exact ⟨"**error expected a file but it does not exist " ++ file,
          by simp [checkCorpora, hn, hf]⟩
      · rcases h with ⟨name, hmem, hbad⟩
        have hname : name ∈ rest := by
          rcases List.mem_cons.mp hmem with rfl | hr
          · exfalso
            rcases hbad with hb | ⟨file2, hf2, hfs2⟩
            · rw [hn] at hb; cases hb
            · rw [hn] at hf2
              injection hf2 with e
              subst e
              rw [hf] at hfs2
              cases hfs2
          · exact hr
        rcases ih ⟨name, hname, hbad⟩ with ⟨msg, hmsg⟩
        exact ⟨msg, by simp [checkCorpora, hn, hf, hmsg]⟩

/--
Claim C5: `TextParser` construction raises ValueError before any record is processed
whenever the configuration is `None`, or empty, or lacks the required-field list, or
lacks the corpus table, or one of the six canonical corpora either fails to resolve to a
path or resolves to a path that does not exist.  Every conclusion names the same error
for *every* `data` argument (the final conjunct states this frame property outright), so
no record is read in any of these cases.
-/
theorem c5_construction_failures (fs : List (String × List String)) (now : ℚ)
    (data : String) (cfg : List (String × ConfigVal)) :
    (textParserInit fs now none data = .error "**error missing configuration section") ∧
    (cfg.length = 0 →
      textParserInit fs now (some cfg) data = .error "**error missing configuration section") ∧
    (1 ≤ cfg.length → dget cfg "required" = none →
      textParserInit fs now (some cfg) data =
        .error "**error no required fields were specified..") ∧
    (∀ rl, 1 ≤ cfg.length → dget cfg "required" = some (.vals rl) →
      dget cfg "corpus" = none →
      textParserInit fs now (some cfg) data =
        .error "**error missing configuration section corpus.") ∧
    (∀ rl t name, 1 ≤ cfg.length → dget cfg "required" = some (.vals rl) →
      dget cfg "corpus" = some (.table t) → name ∈ corpusNames →
      badCorpusName fs (corpusResolve t (rebindFieldNames cfg textTagMapDefault)) name →
      ∃ msg, textParserInit fs now (some cfg) data = .error msg) ∧
    (∀ e d1 d2, textParserInitConfig fs (some cfg) = .error e →
      textParserInit fs now (some cfg) d1 = textParserInit fs now (some cfg) d2) := by
  refine ⟨rfl, ?_, ?_, ?_, ?_, ?_⟩
  · intro h0
    rw [List.length_eq_zero] at h0
    subst h0
    rfl
  · intro hlen hreq
    have hnl : ¬ cfg.length < 1 := Nat.not_lt.mpr hlen
    simp [textParserInit, textParserInitConfig, hnl, loadRequestedFields, hreq]
  · intro rl hlen hreq hcorp
    have hnl : ¬ cfg.length < 1 := Nat.not_lt.mpr hlen
    simp [textParserInit, textParserInitConfig, hnl, loadRequestedFields, hreq,
      loadCorpora, hcorp]
  · intro rl t name hlen hreq hcorp hmem hbad
    have hnl : ¬ cfg.length < 1 := Nat.not_lt.mpr hlen
    rcases checkCorpora_error_of_bad fs
        (corpusResolve t (rebindFieldNames cfg textTagMapDefault)) corpusNames
        ⟨name, hmem, hbad⟩ with ⟨msg, hmsg⟩
    refine ⟨msg, ?_⟩
    simp [textParserInit, textParserInitConfig, hnl, loadRequestedFields, hreq,
      loadCorpora, hcorp, hmsg]
  · intro e d1 d2 he
    simp [textParserInit, he]

/-- Witness for C5: a one-entry configuration without a required-field list fails
construction with the missing-required error, independently of the data argument. -/
theorem c5_construction_failures_witness :
    textParserInit [] 0 (some [("optional", ConfigVal.vals [])]) "a,b" =
      .error "**error no required fields were specified.." :=
  (c5_construction_failures [] 0 "a,b" [("optional", ConfigVal.vals [])]).2.2.1
    (by decide) (by decide)

/-! ## Claim C6 -/

/-- Removing one unresolvable field from a customer changes the inline pass of `toFlat`
only by one error: same block routing, same output lines. -/
theorem inlineRun_unresolvable (tagMap symphonyTags : List (String × String)) (f v : String)
    (hb : blocksOf f = none) (hr : resolveTag tagMap symphonyTags f = none) :
    ∀ (c1 c2 : List (String × String)) (B : Blocks),
      inlineRun tagMap symphonyTags B (c1 ++ (f, v) :: c2) =
        (let r := inlineRun tagMap symphonyTags B (c1 ++ c2)
         (r.1, r.2.1, r.2.2 + 1)) := by
  intro c1
  induction c1 with
  | nil =>
    intro c2 B
    simp [inlineRun, hb, hr]
  | cons gw c1' ih =>
    intro c2 B
    obtain ⟨g, w⟩ := gw
    rcases hg : blocksOf g with _ | bid
    · rcases hgt : resolveTag tagMap symphonyTags g with _ | t
      · simp [inlineRun, hg, hgt, ih]
      · simp [inlineRun, hg, hgt, ih]
    · simp [inlineRun, hg, ih]

/--
Claim C6: serializing a customer record containing a field whose tag resolves neither
through the block table nor through `_tagMap_`/`symphonyTags` produces exactly the
output of the same record without that field — every other field's line unmodified, the
same block state — plus exactly one error increment; the record is not aborted and (the
embedding being total) nothing is thrown.
-/
theorem c6_unresolvable_field_skipped (tagMap symphonyTags : List (String × String))
    (B : Blocks) (c1 c2 : List (String × String)) (f v : String)
    (hb : blocksOf f = none) (hr : resolveTag tagMap symphonyTags f = none) :
    customerToFlat tagMap symphonyTags B (c1 ++ (f, v) :: c2) =
      (let r := customerToFlat tagMap symphonyTags B (c1 ++ c2)
       (r.1, r.2.1, r.2.2 + 1)) := by
  have h := inlineRun_unresolvable tagMap symphonyTags f v hb hr c1 c2 B
  rcases hq : inlineRun tagMap symphonyTags B (c1 ++ c2) with ⟨B1, lines, errs⟩
  rw [hq] at h
  simp only [customerToFlat, h, hq, Prod.mk.injEq]
  refine ⟨trivial, trivial, ?_⟩
  omega

/-- Witness for C6: a record with the unresolvable field `bogus` between two resolvable
fields serializes to the same lines as without it, with one more error. -/
theorem c6_unresolvable_field_skipped_witness :
    customerToFlat fwTagMapDefault fwSymphonyTags ⟨[], [], [], []⟩
        ([("firstName", "Lewis")] ++ ("bogus", "x") :: [("lastName", "H")]) =
      (let r := customerToFlat fwTagMapDefault fwSymphonyTags ⟨[], [], [], []⟩
          ([("firstName", "Lewis")] ++ [("lastName", "H")])
       (r.1, r.2.1, r.2.2 + 1)) :=
  c6_unresolvable_field_skipped fwTagMapDefault fwSymphonyTags ⟨[], [], [], []⟩
    [("firstName", "Lewis")] [("lastName", "H")] "bogus" "x" rfl rfl

/-! ## Claim C9 -/

/-- The inline pass never disturbs an `addr1` binding whose key the customer does not
contain. -/
theorem inlineRun_addr1_preserved (tagMap symphonyTags : List (String × String))
    (f : String) :
    ∀ (c : List (String × String)) (B : Blocks), f ∉ dkeys c →
      dget (inlineRun tagMap symphonyTags B c).1.addr1 f = dget B.addr1 f := by
  intro c
  induction c with
  | nil => intro B _; rfl
  | cons gw rest ih =>
    intro B hf
    obtain ⟨g, w⟩ := gw
    simp only [dkeys_cons, List.mem_cons, not_or] at hf
    rcases hg : blocksOf g with _ | bid
    · rcases hgt : resolveTag tagMap symphonyTags g with _ | t
      · simp only [inlineRun, hg, hgt]
        exact ih B hf.2
      · simp only [inlineRun, hg, hgt]
        exact ih B hf.2
    · simp only [inlineRun, hg]
      rw [ih _ hf.2]
      cases bid with
      | a1 => simp [Blocks.update, dget_dset_ne _ _ _ _ (Ne.symm hf.1)]
      | a2 => rfl
      | a3 => rfl
      | xi => rfl

/-- Processing a customer that contains an `addr1`-routed field leaves that field's value
in the `addr1` block state. -/
theorem inlineRun_addr1_written (tagMap symphonyTags : List (String × String))
    (f v : String) (hb : blocksOf f = some BlockId.a1) :
    ∀ (c : List (String × String)) (B : Blocks), (dkeys c).Nodup → dget c f = some v →
      dget (inlineRun tagMap symphonyTags B c).1.addr1 f = some v := by
  intro c
  induction c with
  | nil => intro B _ hv; simp at hv
  | cons gw rest ih =>
    intro B hnd hv
    obtain ⟨g, w⟩ := gw
    have hnd2 : (dkeys rest).Nodup ∧ g ∉ dkeys rest := by
      rw [dkeys_cons, List.nodup_cons] at hnd
      exact ⟨hnd.2, hnd.1⟩
    by_cases hgf : g = f
    · subst hgf
      rw [dget_cons] at hv
      simp only [if_pos] at hv
      injection hv with hwv
      subst hwv
      simp only [inlineRun, hb]
      rw [inlineRun_addr1_preserved tagMap symphonyTags g rest _ hnd2.2]
      simp [Blocks.update, dget_dset_self]
    · rw [dget_cons] at hv
      simp only [hgf, if_false, ite_false] at hv
      rcases hg : blocksOf g with _ | bid
      · rcases hgt : resolveTag tagMap symphonyTags g with _ | t
        · simp only [inlineRun, hg, hgt]
          exact ih _ hnd2.1 hv
        · simp only [inlineRun, hg, hgt]
          exact ih _ hnd2.1 hv
      · simp only [inlineRun, hg]
        exact ih _ hnd2.1 hv

/-- `_printBlock_` emits the line of every block entry whose tag resolves. -/
theorem printBlockFields_contains (tagMap symphonyTags : List (String × String))
    (f v tag : String) (ht : resolveTag tagMap symphonyTags f = some tag) :
    ∀ block : List (String × String), dget block f = some v →
      lineFor tag v ∈ (printBlockFields tagMap symphonyTags block).1 := by
  intro block
  induction block with
  | nil => intro hv; simp at hv
  | cons kw rest ih =>
    intro hv
    obtain ⟨k, w⟩ := kw
    by_cases hk : k = f
    · subst hk
      rw [dget_cons] at hv
      simp only [if_pos] at hv
      injection hv with hwv
      subst hwv
      simp [printBlockFields, ht]
    · rw [dget_cons] at hv
      simp only [hk, if_false, ite_false] at hv
      rcases hkt : resolveTag tagMap symphonyTags k with _ | t2
      · simp only [printBlockFields, hkt]
        exact ih hv
      · simp only [printBlockFields, hkt]
        exact List.mem_cons_of_mem _ (ih hv)

/-- A customer's `toFlat` segment emits a line for every resolvable entry of the `addr1`
block state left by its inline pass. -/
theorem customerToFlat_mem_addr1 (tagMap symphonyTags : List (String × String))
    (B : Blocks) (c : List (String × String)) (f v tag : String)
    (ht : resolveTag tagMap symphonyTags f = some tag)
    (h2 : dget (inlineRun tagMap symphonyTags B c).1.addr1 f = some v) :
    lineFor tag v ∈ (customerToFlat tagMap symphonyTags B c).2.1 := by
  have hne : 0 < (inlineRun tagMap symphonyTags B c).1.addr1.length := by
    rcases hcase : (inlineRun tagMap symphonyTags B c).1.addr1 with _ | ⟨p, rest⟩
    · rw [hcase] at h2; simp at h2
    · simp
  have hmem : lineFor tag v ∈ (printBlock tagMap symphonyTags "userAddr1"
      (inlineRun tagMap symphonyTags B c).1.addr1).1 := by
    have := printBlockFields_contains tagMap symphonyTags f v tag ht _ h2
    simp [printBlock]
    tauto
  simp only [customerToFlat, hne, if_pos, gt_iff_lt]
  simp only [List.mem_cons, List.mem_append]
  tauto

/--
Claim C9: the block dictionaries are `FlatWriter` instance state threaded — never
cleared — from one customer to the next inside `toFlat`.  For two appended customers,
when the first routes field `f` (value `v`) into `addr1` and the second does not carry
`f` itself, the serialized output is the first customer's segment followed by the second
customer's segment computed from the *surviving* block state, and the second customer's
segment emits `f`'s line again inside its `addr1` block.
-/
theorem c9_blocks_persist_across_customers (st : FWState)
    (c1 c2 : List (String × String)) (f v tag : String)
    (hcs : st.customersJson = [c1, c2])
    (hnd : (dkeys c1).Nodup)
    (hb : blocksOf f = some BlockId.a1)
    (hv : dget c1 f = some v)
    (hnot : f ∉ dkeys c2)
    (ht : resolveTag st.tagMap st.symphonyTags f = some tag) :
    (toFlat st).1 =
      (customerToFlat st.tagMap st.symphonyTags
          ⟨st.addr1, st.addr2, st.addr3, st.xinfo⟩ c1).2.1 ++
        (customerToFlat st.tagMap st.symphonyTags
          (customerToFlat st.tagMap st.symphonyTags
            ⟨st.addr1, st.addr2, st.addr3, st.xinfo⟩ c1).1 c2).2.1 ∧
    lineFor tag v ∈
      (customerToFlat st.tagMap st.symphonyTags
        (customerToFlat st.tagMap st.symphonyTags
          ⟨st.addr1, st.addr2, st.addr3, st.xinfo⟩ c1).1 c2).2.1 := by
  have hB1 : (customerToFlat st.tagMap st.symphonyTags
      ⟨st.addr1, st.addr2, st.addr3, st.xinfo⟩ c1).1 =
      (inlineRun st.tagMap st.symphonyTags
        ⟨st.addr1, st.addr2, st.addr3, st.xinfo⟩ c1).1 := rfl
  constructor
  · simp [toFlat, hcs, toFlatLoop]
  · have h1 : dget (customerToFlat st.tagMap st.symphonyTags
        ⟨st.addr1, st.addr2, st.addr3, st.xinfo⟩ c1).1.addr1 f = some v := by
      rw [hB1]
      exact inlineRun_addr1_written st.tagMap st.symphonyTags f v hb c1 _ hnd hv
    have h2 : dget (inlineRun st.tagMap st.symphonyTags
        (customerToFlat st.tagMap st.symphonyTags
          ⟨st.addr1, st.addr2, st.addr3, st.xinfo⟩ c1).1 c2).1.addr1 f = some v := by
      rw [inlineRun_addr1_preserved st.tagMap st.symphonyTags f c2 _ hnot]
      exact h1
    exact customerToFlat_mem_addr1 st.tagMap st.symphonyTags _ c2 f v tag ht h2

/-- A `FlatWriter` with two appended customers: the first carries the `addr1`-routed
field `email`, the second does not. -/
def c9St : FWState :=
  { flatWriterInit 3 with
    customersJson := [[("email", "a@b.ca"), ("userId", "123")], [("note", "hi")]] }

/-- Witness for C9: the first customer's email is emitted again inside the second
customer's `addr1` block. -/
theorem c9_blocks_persist_witness :
    (toFlat c9St).1 =
      (customerToFlat c9St.tagMap c9St.symphonyTags
          ⟨c9St.addr1, c9St.addr2, c9St.addr3, c9St.xinfo⟩
          [("email", "a@b.ca"), ("userId", "123")]).2.1 ++
        (customerToFlat c9St.tagMap c9St.symphonyTags
          (customerToFlat c9St.tagMap c9St.symphonyTags
            ⟨c9St.addr1, c9St.addr2, c9St.addr3, c9St.xinfo⟩
            [("email", "a@b.ca"), ("userId", "123")]).1 [("note", "hi")]).2.1 ∧
    lineFor "EMAIL" "a@b.ca" ∈
      (customerToFlat c9St.tagMap c9St.symphonyTags
        (customerToFlat c9St.tagMap c9St.symphonyTags
          ⟨c9St.addr1, c9St.addr2, c9St.addr3, c9St.xinfo⟩
          [("email", "a@b.ca"), ("userId", "123")]).1 [("note", "hi")]).2.1 :=
  c9_blocks_persist_across_customers c9St
    [("email", "a@b.ca"), ("userId", "123")] [("note", "hi")] "email" "a@b.ca" "EMAIL"
    rfl (by decide) rfl rfl (by decide) rfl

/-! ## Claim C10 -/

/--
Claim C10 counterexample: the claim says a non-`None` record with at least
`minimumFields` entries is accepted, but `appendCustomer` then evaluates
`customerJson[fieldName]` for every field bound to a Symphony date tag (flat.py line
426), so a three-field record without a `birthday` key raises an uncaught KeyError
instead of returning `True`.
-/
theorem c10_counterexample :
    appendCustomer (flatWriterInit 3) (some [("a", "1"), ("b", "2"), ("c", "3")]) =
      .error "KeyError" := rfl

/-- Adding defaults (flat.py lines 415-418) never removes a key. -/
theorem dkeys_defaults_mono (ds : List (String × String)) :
    ∀ (c : List (String × String)) (k : String), k ∈ dkeys c →
      k ∈ dkeys (ds.foldl
        (fun c kv => if dget c kv.1 = none then dset c kv.1 kv.2 else c) c) := by
  induction ds with
  | nil => exact fun c k h => h
  | cons d rest ih =>
    intro c k h
    simp only [List.foldl_cons]
    apply ih
    by_cases hd : dget c d.1 = none
    · simp [hd, mem_dkeys_dset, h]
    · simp [hd, h]

/-- Adding defaults only adds keys drawn from the defaults table. -/
theorem dkeys_defaults_not_mem (ds : List (String × String)) :
    ∀ (c : List (String × String)) (k : String), k ∉ dkeys c → k ∉ dkeys ds →
      k ∉ dkeys (ds.foldl
        (fun c kv => if dget c kv.1 = none then dset c kv.1 kv.2 else c) c) := by
  induction ds with
  | nil => exact fun c k h _ => h
  | cons d rest ih =>
    intro c k h hds
    simp only [dkeys_cons, List.mem_cons, not_or] at hds
    simp only [List.foldl_cons]
    apply ih _ _ _ hds.2
    by_cases hd : dget c d.1 = none
    · simp only [hd, if_pos, ite_true]
      rw [mem_dkeys_dset]
      rintro (hk | hk)
      · exact h hk
      · exact hds.1 hk
    · simpa [hd] using h

/-- The date-conversion pass is the identity on a tag-map segment that binds nothing to
the Symphony date tag under conversion. -/
theorem convertDatesInner_no_hit (tagMap : List (String × String)) (sd : String)
    (l : List (String × String)) (h : ∀ p ∈ l, p.2 ≠ sd)
    (acc : List (String × String) × Nat) :
    convertDatesInner tagMap sd l acc = .ok acc := by
  induction l generalizing acc with
  | nil => rfl
  | cons p rest ih =>
    obtain ⟨f, val⟩ := p
    have hne : val ≠ sd := h (f, val) (List.mem_cons_self _ _)
    simp only [convertDatesInner, hne, if_neg, ite_false]
    exact ih (fun q hq => h q (List.mem_cons_of_mem _ hq)) acc

/-- The date-conversion pass over a tag map whose only binding to the Symphony date tag
`sd` is `(f, sd)`: the customer's `f` entry is read, converted and updated or popped. -/
theorem convertDatesInner_single (tagMap : List (String × String)) (sd f : String)
    (l1 l2 : List (String × String)) (h1 : ∀ p ∈ l1, p.2 ≠ sd) (h2 : ∀ p ∈ l2, p.2 ≠ sd)
    (acc : List (String × String) × Nat) (dval : String)
    (hv : dget acc.1 f = some dval) :
    convertDatesInner tagMap sd (l1 ++ (f, sd) :: l2) acc =
      .ok
        (match (getAnsiDate tagMap f dval).1 with
         | none => dpop acc.1 f
         | some nd => dset acc.1 f nd,
         acc.2 + (getAnsiDate tagMap f dval).2) := by
  induction l1 generalizing acc with
  | nil =>
    simp only [List.nil_append, convertDatesInner, if_pos, hv, ite_true]
    exact convertDatesInner_no_hit tagMap sd l2 h2 _
  | cons p l1' ih =>
    obtain ⟨g, val⟩ := p
    have hne : val ≠ sd := h1 (g, val) (List.mem_cons_self _ _)
    simp only [List.cons_append, convertDatesInner, hne, if_neg, ite_false]
    exact ih (fun q hq => h1 q (List.mem_cons_of_mem _ hq)) acc hv

/-- As `convertDatesInner_single`, but the customer lacks the `f` key: KeyError. -/
theorem convertDatesInner_single_keyerror (tagMap : List (String × String)) (sd f : String)
    (l1 l2 : List (String × String)) (h1 : ∀ p ∈ l1, p.2 ≠ sd)
    (acc : List (String × String) × Nat) (hv : dget acc.1 f = none) :
    convertDatesInner tagMap sd (l1 ++ (f, sd) :: l2) acc = .error "KeyError" := by
  induction l1 generalizing acc with
  | nil => simp only [List.nil_append, convertDatesInner, if_pos, hv, ite_true]
  | cons p l1' ih =>
    obtain ⟨g, val⟩ := p
    have hne : val ≠ sd := h1 (g, val) (List.mem_cons_self _ _)
    simp only [List.cons_append, convertDatesInner, hne, if_neg, ite_false]
    exact ih (fun q hq => h1 q (List.mem_cons_of_mem _ hq)) acc hv

/-- The default tag map up to (excluding) the `birthday` binding. -/
def fwTagPre : List (String × String) :=
  [("userId", "userId"), ("profile", "userProfile"), ("firstName", "userFirstName"),
   ("lastName", "userLastName"), ("middleName", "userMiddleName")]

/-- The default tag map strictly between the `birthday` and `expiry` bindings. -/
def fwTagMid : List (String × String) :=
  [("gender", "userCategory2"), ("email", "email"), ("phone", "phone"),
   ("street", "street"), ("city", "citySlashState"), ("province", "citySlashState"),
   ("country", "country"), ("postalcode", "postalcode"), ("barcode", "userId"),
   ("pin", "userPin"), ("type", "userProfile")]

/-- The default tag map after the `expiry` binding. -/
def fwTagPost : List (String × String) :=
  [("branch", "userLibrary"), ("status", "userStatus"), ("careOf", "careSlashOf"),
   ("note", "note")]

theorem fwTagMapDefault_split_birthday :
    fwTagMapDefault =
      fwTagPre ++ ("birthday", "userBirthDate") ::
        (fwTagMid ++ ("expiry", "userPrivExpires") :: fwTagPost) := rfl

theorem fwTagMapDefault_split_expiry :
    fwTagMapDefault =
      (fwTagPre ++ ("birthday", "userBirthDate") :: fwTagMid) ++
        ("expiry", "userPrivExpires") :: fwTagPost := by decide

/--
Claim C10 as amended: with the default tag map, defaults and merge table,
`appendCustomer` returns `False`, adds one to the run-wide error count and leaves the
pending customer list (and everything else) unchanged when the record is `None` or has
fewer than `minimumFields` entries.  A record of sufficient size is accepted — it is
processed (defaults, date conversion, merges) and appended with a `True` return — *only
when it carries both the `birthday` and `expiry` keys*; when `birthday` is absent the
unguarded `customerJson[fieldName]` of flat.py line 426 raises a KeyError instead.
-/
theorem c10_append_amended (st : FWState)
    (hT : st.tagMap = fwTagMapDefault) (hD : st.defaults = fwDefaults)
    (hM : st.mergedFields = fwMergedFields) :
    (appendCustomer st none = .ok (false, { st with totalErrors := st.totalErrors + 1 })) ∧
    (∀ cj, cj.length < st.minimumFields →
      appendCustomer st (some cj) =
        .ok (false, { st with totalErrors := st.totalErrors + 1 })) ∧
    (∀ cj, st.minimumFields ≤ cj.length → "birthday" ∈ dkeys cj → "expiry" ∈ dkeys cj →
      ∃ c2 e2, appendCustomer st (some cj) =
        .ok (true, { st with customersJson := st.customersJson ++ [c2],
                             totalErrors := e2 })) ∧
    (∀ cj, st.minimumFields ≤ cj.length → "birthday" ∉ dkeys cj →
      appendCustomer st (some cj) = .error "KeyError") := by
  refine ⟨rfl, ?_, ?_, ?_⟩
  · intro cj h
    simp [appendCustomer, h]
  · intro cj hlen hb he
    have hnl : ¬ cj.length < st.minimumFields := Nat.not_lt.mpr hlen
    obtain ⟨c1, hc1⟩ : ∃ c1, fwDefaults.foldl
        (fun c kv => if dget c kv.1 = none then dset c kv.1 kv.2 else c) cj = c1 :=
      ⟨_, rfl⟩
    have hb1 : "birthday" ∈ dkeys c1 := by
      rw [← hc1]
      exact dkeys_defaults_mono _ _ _ hb
    have he1 : "expiry" ∈ dkeys c1 := by
      rw [← hc1]
      exact dkeys_defaults_mono _ _ _ he
    obtain ⟨bval, hbval⟩ := dget_mem c1 "birthday" hb1
    obtain ⟨eval2, heval⟩ := dget_mem c1 "expiry" he1
    have hp1 := convertDatesInner_single fwTagMapDefault "userBirthDate" "birthday"
      fwTagPre (fwTagMid ++ ("expiry", "userPrivExpires") :: fwTagPost)
      (by decide) (by decide) (c1, 0) bval hbval
    rw [← fwTagMapDefault_split_birthday] at hp1
    have hexp2 : dget
        (match (getAnsiDate fwTagMapDefault "birthday" bval).1 with
         | none => dpop (c1, (0 : Nat)).1 "birthday"
         | some nd => dset (c1, (0 : Nat)).1 "birthday" nd) "expiry" = some eval2 := by
      cases (getAnsiDate fwTagMapDefault "birthday" bval).1 with
      | none =>
        rw [dget_dpop_ne _ _ _ (by decide)]
        exact heval
      | some nd =>
        rw [dget_dset_ne _ _ _ _ (by decide)]
        exact heval
    have hp2 := convertDatesInner_single fwTagMapDefault "userPrivExpires" "expiry"
      (fwTagPre ++ ("birthday", "userBirthDate") :: fwTagMid) fwTagPost
      (by decide) (by decide)
      ((match (getAnsiDate fwTagMapDefault "birthday" bval).1 with
        | none => dpop (c1, (0 : Nat)).1 "birthday"
        | some nd => dset (c1, (0 : Nat)).1 "birthday" nd),
        (c1, (0 : Nat)).2 + (getAnsiDate fwTagMapDefault "birthday" bval).2)
      eval2 hexp2
    rw [← fwTagMapDefault_split_expiry] at hp2
    have hcd : ∃ r, convertDates fwTagMapDefault c1 = .ok r :=
      ⟨_, by simp only [convertDates, hp1]; exact hp2⟩
    obtain ⟨r, hr⟩ := hcd
    refine ⟨fwMergedFields.foldl (fun c mk => mergeFieldsFn c mk.1 mk.2 ", " true) r.1,
      st.totalErrors + r.2, ?_⟩
    simp only [appendCustomer, hnl, ite_false, if_neg, hD, hT, hM]
    rw [hc1]
    simp only [hr]
  · intro cj hlen hbnot
    have hnl : ¬ cj.length < st.minimumFields := Nat.not_lt.mpr hlen
    obtain ⟨c1, hc1⟩ : ∃ c1, fwDefaults.foldl
        (fun c kv => if dget c kv.1 = none then dset c kv.1 kv.2 else c) cj = c1 :=
      ⟨_, rfl⟩
    have hb1 : "birthday" ∉ dkeys c1 := by
      rw [← hc1]
      exact dkeys_defaults_not_mem _ _ _ hbnot (by decide)
    have hbval : dget c1 "birthday" = none := dget_none_of_not_mem _ _ hb1
    have hp1 := convertDatesInner_single_keyerror fwTagMapDefault "userBirthDate"
      "birthday" fwTagPre (fwTagMid ++ ("expiry", "userPrivExpires") :: fwTagPost)
      (by decide) (c1, 0) hbval
    rw [← fwTagMapDefault_split_birthday] at hp1
    simp only [appendCustomer, hnl, ite_false, if_neg, hD, hT, hM]
    rw [hc1]
    simp only [convertDates, hp1]

/-- Witness for the C10 amended theorem: a four-field record with birthday and expiry is
accepted and appended; a three-field record below the minimum is rejected with one error
and no state change. -/
theorem c10_append_amended_witness :
    (∃ c2 e2, appendCustomer (flatWriterInit 3)
        (some [("firstName", "Lewis"), ("lastName", "Hamilton"),
               ("birthday", "1974-08-22"), ("expiry", "2021-08-22")]) =
      .ok (true, { flatWriterInit 3 with
                    customersJson := (flatWriterInit 3).customersJson ++ [c2],
                    totalErrors := e2 })) ∧
    appendCustomer (flatWriterInit 3) (some [("a", "1"), ("b", "2")]) =
      .ok (false, { flatWriterInit 3 with totalErrors := (flatWriterInit 3).totalErrors + 1 }) :=
  ⟨(c10_append_amended (flatWriterInit 3) rfl rfl rfl).2.2.1
      [("firstName", "Lewis"), ("lastName", "Hamilton"),
       ("birthday", "1974-08-22"), ("expiry", "2021-08-22")]
      (by decide) (by decide) (by decide),
   (c10_append_amended (flatWriterInit 3) rfl rfl rfl).2.1
      [("a", "1"), ("b", "2")] (by decide)⟩
